import Mathlib

/-!
# Verification of the Hybrid-Turtle snapshot engine

Shallow embedding of `Planning/20_build_master_snapshot_v5_6_stock_first_rank.py`
(the classification, stateful-stop and risk-allocation engine).  Python floats
that may be NaN are modelled as `Option ℚ` (`none` = NaN / missing); every
NaN-guard (`np.isfinite`) in the source becomes a pattern match.  Dates are
modelled as day numbers (`ℤ`); date strings that may be empty become
`Option ℤ`.  Reason strings whose content is a fixed template are modelled as
inductive datatypes carrying the template's numeric payloads.
-/

namespace Turtle

/-- A Python float that may be NaN: `none` models NaN / missing. -/
abbrev FQ := Option ℚ

/-! ## Configuration constants (module-level values in the source) -/

/-- Lines 214-216, 457-460, 197 of the source: the stop/profit-protection
configuration constants, gathered into one record so theorems can quantify
over configurations. -/
structure StopConfig where
  profitProtectionEnabled : Bool
  lock1RThreshold : ℚ
  lockHalfRThreshold : ℚ
  beTriggerR : ℚ
  beConditionMode : String
  beAdxMin : ℚ
  minHoldDaysForBE : ℚ
  chopAtrTighteningMult : ℚ
  deriving Repr, DecidableEq

/-- The source's default values: `PROFIT_PROTECTION_ENABLED = True`,
`PROFIT_PROTECTION_LOCK_1R_THRESHOLD = 3.0`,
`PROFIT_PROTECTION_LOCK_HALF_R_THRESHOLD = 2.5`, `BE_TRIGGER_R = 1.5`,
`BE_CONDITION_MODE = "none"`, `BE_ADX_MIN = 20`, `MIN_HOLD_DAYS_FOR_BE = 5`,
`CHOP_ATR_TIGHTENING_MULT = 1.5`. -/
def defaultStopConfig : StopConfig :=
  { profitProtectionEnabled := true
    lock1RThreshold := 3
    lockHalfRThreshold := 5/2
    beTriggerR := 3/2
    beConditionMode := "none"
    beAdxMin := 20
    minHoldDaysForBE := 5
    chopAtrTighteningMult := 3/2 }

/-! ## Data model -/

/-- One record of the persisted `positions_state.csv` table, as produced by
`read_positions_state` (source lines 1030-1085).  Missing CSV values become
the same defaults the Python `dict.get` calls use (`NaN` → `none`,
empty string dates → `none`, counters → `0`). -/
structure PosStateRec where
  entry_price : FQ
  initial_stop : FQ
  active_stop : FQ
  adds_taken : ℤ
  entry_date : String
  last_exit_date : Option ℤ
  last_exit_profit_R : FQ
  last_exit_reason : String
  whipsaw_count : ℤ
  last_whipsaw_date : Option ℤ
  deriving Repr, DecidableEq

/-- The per-instrument "row" dict fields read by the functions embedded here. -/
structure Row where
  is_held : Bool
  ticker : String
  close : FQ
  atr_14 : FQ
  low_20 : FQ
  high_20 : FQ
  vol_ratio : FQ
  sleeve : String
  stop_level : FQ
  adx_14 : FQ
  regime : String
  holding_days : FQ
  t212_avg_price : FQ
  trend_efficiency : FQ
  classify_status : String
  validation_ok : Bool
  deriving Repr, DecidableEq

/-- The breakeven gating failure messages (source lines 3038, 3041, 3048). -/
inductive BEBlock where
  | regimeNotTrend (regime : String)
  | adxTooLow (adx : FQ)
  | heldTooShort (days : FQ)
  deriving Repr, DecidableEq

/-- The `stop_reason` strings set by `compute_stateful_stop`, one constructor
per template, carrying the numeric payloads the f-strings interpolate. -/
inductive StopReason where
  | notSet
  | sidewaysTightened
  | lock1RTrailing (profitR cand : ℚ)
  | lockHalfR (profitR cand : ℚ)
  | breakeven (profitR cand : ℚ)
  | beBlocked (b : BEBlock)
  | statefulKept
  | normal
  deriving Repr, DecidableEq

/-- The `profit_protection_level` strings: `""`, `"3R_LOCK_1R_TRAILING"`,
`"2.5R_LOCK_HALF_R"`, `f"{BE_TRIGGER_R}R_BREAKEVEN"`, `"BE_BLOCKED"`. -/
inductive ProfitLevel where
  | notSet
  | lock1RTrailing
  | lockHalfR
  | breakeven (trigger : ℚ)
  | beBlocked
  deriving Repr, DecidableEq

/-- The `_state_update` dict built at source lines 3101-3108. -/
structure StateUpdate where
  ticker : String
  entry_price : FQ
  initial_stop : FQ
  active_stop : FQ
  adds_taken : ℤ
  entry_date : String
  deriving Repr, DecidableEq

/-- The output dict of `compute_stateful_stop` (source lines 2929-2937). -/
structure StopOut where
  candidate_stop : FQ
  active_stop : FQ
  stop_reason : StopReason
  profit_R : FQ
  profit_protection_level : ProfitLevel
  initial_R : FQ
  state_update : Option StateUpdate
  is_new_entry : Bool
  deriving Repr, DecidableEq

/-- The initial `out` dict (source lines 2929-2937), returned unchanged by the
early exits at lines 2939-2940 and 2948-2949. -/
def stopOut0 : StopOut :=
  { candidate_stop := none, active_stop := none, stop_reason := .notSet,
    profit_R := none, profit_protection_level := .notSet, initial_R := none,
    state_update := none, is_new_entry := false }

/-! ## Stateful stop & profit protection (`compute_stateful_stop`) -/

/-- Source lines 2960-2968: SIDEWAYS tightening (stocks only, ETFs keep the
normal trailing stop).  Returns the possibly tightened candidate together with
the `stop_reason` set so far (`notSet` models the empty string). -/
def sidewaysTighten (cfg : StopConfig) (marketRegime sleeve : String) (close : ℚ)
    (atr cand : FQ) : FQ × StopReason :=
  if marketRegime = "SIDEWAYS" ∧ sleeve ≠ "ETF_CORE" then
    match atr with
    | some a =>
      if 0 < a then
        let chopTight := close - cfg.chopAtrTighteningMult * a
        (some (match cand with
               | some c => max c chopTight
               | none => chopTight), .sidewaysTightened)
      else (cand, .notSet)
    | none => (cand, .notSet)
  else (cand, .notSet)

/-- The record threaded out of the profit-protection block. -/
structure ProfitStep where
  cand : FQ
  profitR : FQ
  reason : StopReason
  level : ProfitLevel
  initialR : FQ
  deriving Repr, DecidableEq

/-- Source lines 2974-3066: tiered profit protection.  `reasonIn` is the
`stop_reason` accumulated so far (tier branches overwrite it, the
below-trigger fall-through keeps it). -/
def profitProtect (cfg : StopConfig) (row : Row) (close : ℚ)
    (entryPrice initialStop : FQ) (candIn : FQ) (reasonIn : StopReason) : ProfitStep :=
  if cfg.profitProtectionEnabled then
    match entryPrice, initialStop with
    | some ep, some ist =>
      let R := ep - ist
      if 0 < R then
        let profitR := (close - ep) / R
        if cfg.lock1RThreshold ≤ profitR then
          -- TIER 3 (lines 2988-3006): lock +1R and trail aggressively
          let lock1R := ep + R
          let t1 : ℚ := match row.low_20 with
            | some l => max lock1R l
            | none => lock1R
          let profitStop : ℚ := match row.atr_14 with
            | some a => if 0 < a then max t1 (close - 2 * a) else t1
            | none => t1
          let cand2 : ℚ := match candIn with
            | some c => max c profitStop
            | none => profitStop
          { cand := some cand2, profitR := some profitR,
            reason := .lock1RTrailing profitR cand2, level := .lock1RTrailing,
            initialR := some R }
        else if cfg.lockHalfRThreshold ≤ profitR then
          -- TIER 2.5 (lines 3014-3021): lock +0.5R
          let lockHalf := ep + R / 2
          let cand2 : ℚ := match candIn with
            | some c => max c lockHalf
            | none => lockHalf
          { cand := some cand2, profitR := some profitR,
            reason := .lockHalfR profitR cand2, level := .lockHalfR,
            initialR := some R }
        else if cfg.beTriggerR ≤ profitR then
          -- TIER 2 (lines 3027-3060): breakeven, optionally gated
          let blocked : Option BEBlock :=
            if cfg.beConditionMode = "trend_only" then
              if row.regime ≠ "TREND" then some (.regimeNotTrend row.regime)
              else match row.adx_14 with
                | some adx =>
                  if adx < cfg.beAdxMin then some (.adxTooLow (some adx)) else none
                | none => some (.adxTooLow none)
            else if cfg.beConditionMode = "after_days" then
              match row.holding_days with
              | some d =>
                if d < cfg.minHoldDaysForBE then some (.heldTooShort (some d)) else none
              | none => some (.heldTooShort none)
            else none
          match blocked with
          | none =>
            let cand2 : ℚ := match candIn with
              | some c => max c ep
              | none => ep
            { cand := some cand2, profitR := some profitR,
              reason := .breakeven profitR cand2, level := .breakeven cfg.beTriggerR,
              initialR := some R }
          | some b =>
            { cand := candIn, profitR := some profitR,
              reason := .beBlocked b, level := .beBlocked, initialR := some R }
        else
          { cand := candIn, profitR := some profitR, reason := reasonIn,
            level := .notSet, initialR := some R }
      else
        { cand := candIn, profitR := none, reason := reasonIn,
          level := .notSet, initialR := some R }
    | _, _ =>
      { cand := candIn, profitR := none, reason := reasonIn,
        level := .notSet, initialR := none }
  else
    { cand := candIn, profitR := none, reason := reasonIn,
      level := .notSet, initialR := none }

/-- Source lines 3073-3076: the stateful never-loosen rule.
`active_stop = max(previous, candidate)` when the previous stop exists
(keeping the previous stop when the candidate is NaN), the bare candidate
otherwise. -/
def statefulCombine (prev cand : FQ) : FQ :=
  match prev with
  | some p => some (match cand with
                    | some c => max p c
                    | none => p)
  | none => cand

/-- Source lines 3080-3086: the `stop_reason` fallback.  Only an empty reason
is replaced; the `STATEFUL (kept higher prev stop)` message needs a finite
previous stop and `active_stop > candidate_stop` (false when the candidate is
NaN, as in Python). -/
def finalStopReason (reasonIn : StopReason) (prev cand active : FQ) : StopReason :=
  if reasonIn = .notSet then
    match prev, cand, active with
    | some _, some c, some a => if c < a then .statefulKept else .normal
    | _, _, _ => .normal
  else reasonIn

/-- `compute_stateful_stop` (source lines 2891-3113).  `today` is the value of
`date.today().isoformat()`. -/
def computeStatefulStop (row : Row) (posState : Option PosStateRec)
    (marketRegime : String) (cfg : StopConfig) (today : String) : StopOut :=
  if ¬ row.is_held then stopOut0 else
  match row.close with
  | none => stopOut0
  | some close =>
    let entryPrice : FQ := posState.bind (·.entry_price)
    let initialStop : FQ := posState.bind (·.initial_stop)
    let prevActive : FQ := posState.bind (·.active_stop)
    let s1 := sidewaysTighten cfg marketRegime row.sleeve close row.atr_14 row.stop_level
    let pp := profitProtect cfg row close entryPrice initialStop s1.1 s1.2
    let active := statefulCombine prevActive pp.cand
    let reason := finalStopReason pp.reason prevActive pp.cand active
    -- Lines 3088-3098: new-entry detection and entry bookkeeping
    let isNewEntry := entryPrice.isNone
    let entryForState := entryPrice.orElse (fun _ => row.t212_avg_price)
    let existingEntryDate := (posState.map (·.entry_date)).getD ""
    let entryDateForState :=
      if existingEntryDate ≠ "" then existingEntryDate
      else if isNewEntry then today else ""
    { candidate_stop := pp.cand
      active_stop := active
      stop_reason := reason
      profit_R := pp.profitR
      profit_protection_level := pp.level
      initial_R := pp.initialR
      state_update := some
        { ticker := row.ticker.toUpper
          entry_price := entryForState
          initial_stop := initialStop.orElse (fun _ => row.stop_level)
          active_stop := active
          adds_taken := (posState.map (·.adds_taken)).getD 0
          entry_date := entryDateForState }
      is_new_entry := isNewEntry }

/-! ## State persistence across a run (`main`, lines 5106-5115) -/

/-- Source lines 5109-5115: the dict literal that `main` stores back into
`pos_state[t.upper()]` for a held instrument.  It holds only the five
entry/stop bookkeeping keys; the exit-history keys are absent, so any later
`dict.get` on them yields the defaults recorded here. -/
def stateFromUpdate (u : StateUpdate) : PosStateRec :=
  { entry_price := u.entry_price
    initial_stop := u.initial_stop
    active_stop := u.active_stop
    adds_taken := u.adds_taken
    entry_date := u.entry_date
    last_exit_date := none
    last_exit_profit_R := none
    last_exit_reason := ""
    whipsaw_count := 0
    last_whipsaw_date := none }

/-- One run's effect on a single instrument's persisted state (source lines
5090 and 5106-5115): `compute_stateful_stop` runs, and when the instrument is
held and a `_state_update` was produced, the state record is replaced by it. -/
def stepState (st : Option PosStateRec) (row : Row) (marketRegime : String)
    (cfg : StopConfig) (today : String) : Option PosStateRec :=
  let out := computeStatefulStop row st marketRegime cfg today
  if row.is_held then
    match out.state_update with
    | some u => some (stateFromUpdate u)
    | none => st
  else st

/-- One run's input for a single instrument: its row, the combined market
regime and the run date. -/
structure RunInput where
  row : Row
  marketRegime : String
  today : String
  deriving Repr, DecidableEq

/-- A sequence of runs folded over the persisted state of one instrument. -/
def runSeq (cfg : StopConfig) (st : Option PosStateRec) :
    List RunInput → Option PosStateRec
  | [] => st
  | i :: rest => runSeq cfg (stepState st i.row i.marketRegime cfg i.today) rest

/-! ## Market regime detector (`compute_market_regime`, lines 3116-3246) -/

/-- `REGIME_STABILITY_ENABLED = True` (source line 478). -/
def REGIME_STABILITY_ENABLED : Bool := true

/-- `REGIME_STABILITY_DAYS = 3` (source line 479). -/
def REGIME_STABILITY_DAYS : Nat := 3

/-- The body of the counting loop at source lines 3170-3181, over the
benchmark bars listed latest-first as `(close, ma200)` pairs: count
consecutive bars inside the chop band, stopping at the first bar with a
non-finite or non-positive MA200 or a close outside its band. -/
def chopCountLoop (bandPct : ℚ) : List (ℚ × FQ) → Nat
  | [] => 0
  | (c, ma) :: rest =>
    match ma with
    | none => 0
    | some m =>
      if m ≤ 0 then 0
      else if (1 - bandPct) * m ≤ c ∧ c ≤ (1 + bandPct) * m then
        chopCountLoop bandPct rest + 1
      else 0

/-- Source lines 3164-3181: `days_in_chop_band`.  The Python loop runs
`i = 1 .. min(REGIME_STABILITY_DAYS + 2, len(base)) - 1`, reading bar `-i`,
i.e. the first `min(stabDays + 2, length) - 1` elements of the latest-first
bar list. -/
def chopBandCount (bandPct : ℚ) (stabDays : Nat) (bars : List (ℚ × FQ)) : Nat :=
  chopCountLoop bandPct (bars.take (min (stabDays + 2) bars.length - 1))

/-- The per-benchmark result of `one_regime` (regime label, stability flag,
days inside the chop band). -/
structure RegimeResult where
  regime : String
  stable : Bool
  daysInChopBand : Nat
  deriving Repr, DecidableEq

/-- Source lines 3160-3208: the core of `one_regime` once the series is fresh
and `close`/`ma200` are finite with `ma200 > 0`.  `bars` is the benchmark
series latest-first (its head corresponds to the latest bar, whose close is
`close`). -/
def oneRegimeCore (bandPct : ℚ) (close ma200 : ℚ) (bars : List (ℚ × FQ)) :
    RegimeResult :=
  let upper := (1 + bandPct) * ma200
  let lower := (1 - bandPct) * ma200
  let days := if REGIME_STABILITY_ENABLED then
      chopBandCount bandPct REGIME_STABILITY_DAYS bars else 0
  let rawRegime : String :=
    if upper ≤ close then "BULLISH"
    else if close ≤ lower then "BEARISH"
    else "SIDEWAYS"
  if rawRegime = "SIDEWAYS" ∧ REGIME_STABILITY_ENABLED then
    if days < REGIME_STABILITY_DAYS then
      if ma200 < close then ⟨"BULLISH", false, days⟩
      else ⟨"BEARISH", false, days⟩
    else ⟨"SIDEWAYS", true, days⟩
  else ⟨rawRegime, true, days⟩

/-- Source lines 3237-3244: combination of the two benchmark regimes. -/
def combineRegimes (r1 r2 : String) : String :=
  if r1 = "UNKNOWN" ∨ r2 = "UNKNOWN" then "UNKNOWN"
  else if r1 = "BEARISH" ∨ r2 = "BEARISH" then "BEARISH"
  else if r1 = "BULLISH" ∧ r2 = "BULLISH" then "BULLISH"
  else "SIDEWAYS"

/-! ## Universe iteration and skip semantics (`main`, lines 4983-5002, 5254-5256) -/

/-- A universe entry (`{"ticker": t, "ticker_yf": ..., "sleeve": ...}`,
source lines 4912-4921). -/
structure UInstr where
  ticker : String
  ticker_yf : String
  sleeve : String
  deriving Repr, DecidableEq

/-- What the skip gates read from an instrument's downloaded series: the bar
count after `dropna` and the age in days of the last bar. -/
structure SeriesInfo where
  numBars : Nat
  ageDays : ℤ
  deriving Repr, DecidableEq

/-- The skip reasons recorded at source lines 4995 and 5001. -/
inductive SkipReason where
  | insufficientBars
  | staleData (ageDays : ℤ)
  deriving Repr, DecidableEq

/-- One entry of the `skips` list (source lines 4995, 5001). -/
structure SkipEntry where
  ticker : String
  ticker_yf : String
  reason : SkipReason
  deriving Repr, DecidableEq

/-- Source lines 4994-5002: the data gates, in source order.  `some r` means
the instrument is skipped with reason `r`. -/
def skipCheck (maxAge : ℤ) (d : SeriesInfo) : Option SkipReason :=
  if d.numBars = 0 ∨ d.numBars < 230 then some .insufficientBars
  else if maxAge < d.ageDays then some (.staleData d.ageDays)
  else none

/-- The per-instrument loop of `main` (lines 4983-5256) restricted to its
skip/emit skeleton: each instrument either appends a skip entry and
`continue`s, or is evaluated and appends one output row.  The 250-line
evaluation body is abstracted as the parameter `eval`; the theorems hold for
every such evaluation, which is exactly the claim that a skip never affects
any other instrument. -/
def processUniverse {Rowt : Type} (data : UInstr → SeriesInfo) (eval : UInstr → Rowt)
    (maxAge : ℤ) : List UInstr → List Rowt × List SkipEntry
  | [] => ([], [])
  | u :: rest =>
    let out := processUniverse data eval maxAge rest
    match skipCheck maxAge (data u) with
    | some r => (out.1, ⟨u.ticker, u.ticker_yf, r⟩ :: out.2)
    | none => (eval u :: out.1, out.2)

/-! ## Sleeve uniqueness (`enforce_unique_underlyings`, lines 3849-3883) -/

/-- `SLEEVE_PRIORITY = {"HEDGE": 0, "ETF_CORE": 1, "STOCK_CORE": 2,
"STOCK_HIGH_RISK": 3}` with `.fillna(99)` (source lines 3851, 3863). -/
def SLEEVE_PRIORITY (s : String) : ℤ :=
  if s = "HEDGE" then 0
  else if s = "ETF_CORE" then 1
  else if s = "STOCK_CORE" then 2
  else if s = "STOCK_HIGH_RISK" then 3
  else 99

/-- `g.sort_values("__prio"); keep = g.iloc[0]` (source lines 3869-3870):
an element of the group with minimal sleeve priority (the first such, which is
what a stable selection yields; an unstable sort could pick another row of
equal priority, which has the same priority value). -/
def keepMinPrio (g : List UInstr) : Option UInstr :=
  g.foldl (fun acc r =>
    match acc with
    | none => some r
    | some b => if SLEEVE_PRIORITY r.sleeve < SLEEVE_PRIORITY b.sleeve then some r else acc)
    none

/-- `enforce_unique_underlyings` (source lines 3853-3883): group the universe
rows by `ticker_yf` and keep, per group, the row of minimal sleeve priority.
(`pandas.groupby` orders groups by key; the claim under verification is
order-independent, so groups are listed here in first-appearance order.) -/
def enforceUniqueUnderlyings (rows : List UInstr) : List UInstr :=
  ((rows.map (·.ticker_yf)).dedup).filterMap
    (fun ty => keepMinPrio (rows.filter (fun r => decide (r.ticker_yf = ty))))

/-! ## Cluster assignment and risk aggregation (`assign_cluster`, `add_risk_columns`) -/

/-- `assign_cluster` (source lines 770-789): the explicit `cluster_map` entry
wins; otherwise a sleeve-based fallback. -/
def assign_cluster (ticker_yf sleeve : String) (clusterMap : List (String × String)) :
    String :=
  match clusterMap.lookup ticker_yf with
  | some c => c
  | none =>
    if sleeve = "ETF_CORE" then "ETF_CORE"
    else if sleeve = "HEDGE" then "HEDGE"
    else "STOCKS"

/-- The columns of one snapshot row that `add_risk_columns` reads for the
held-risk aggregation (source lines 4305-4362). -/
structure RiskRow where
  sleeve : String
  cluster : String
  is_held : Bool
  t212_quantity : ℚ
  close : FQ
  active_stop : FQ
  stop_level : FQ
  fx_to_gbp_est : FQ
  deriving Repr, DecidableEq

/-- Source lines 4305-4309: `held_stop_used` is `active_stop` when finite,
else `stop_level`. -/
def heldStopUsed (r : RiskRow) : FQ :=
  match r.active_stop with
  | some a => some a
  | none => r.stop_level

/-- Source lines 4312-4313: `close - held_stop_used`, clamped at 0. -/
def heldStopDist (r : RiskRow) : FQ :=
  match r.close, heldStopUsed r with
  | some c, some s => some (if c - s < 0 then 0 else c - s)
  | _, _ => none

/-- Source lines 4316-4317: `held_risk_gbp = qty * dist * fx`, set to `0.0`
for rows that are not held. -/
def heldRiskGbp (r : RiskRow) : FQ :=
  if r.is_held then
    match heldStopDist r, r.fx_to_gbp_est with
    | some d, some fx => some (r.t212_quantity * d * fx)
    | _, _ => none
  else some 0

/-- A pandas `.sum(skipna=True)`: NaN entries contribute nothing. -/
def sumSkipNa (l : List FQ) : ℚ := (l.map (fun x => x.getD 0)).sum

/-- Source line 4338: `open_risk_gbp_ex_hedge`, the held-risk total over the
rows whose sleeve is not `"HEDGE"`. -/
def openRiskExHedge (rows : List RiskRow) : ℚ :=
  sumSkipNa ((rows.filter (fun r => decide (r.sleeve ≠ "HEDGE"))).map heldRiskGbp)

/-- Source line 4349: `cluster_risk_gbp`, the held-risk total of one cluster
(`groupby("cluster").transform("sum")`). -/
def clusterRiskGbp (rows : List RiskRow) (c : String) : ℚ :=
  sumSkipNa ((rows.filter (fun r => decide (r.cluster = c))).map heldRiskGbp)

/-- The distinct cluster labels appearing in the snapshot. -/
def clustersOf (rows : List RiskRow) : List String := (rows.map (·.cluster)).dedup

/-- The specification's aggregate: the sum of per-cluster exposure over all
distinct clusters excluding the hedge cluster. -/
def totalClusterRiskExHedge (rows : List RiskRow) : ℚ :=
  (((clustersOf rows).filter (fun c => decide (c ≠ "HEDGE"))).map (clusterRiskGbp rows)).sum

/-! ## Ranking (`add_rank_score`, lines 4633-4759) -/

/-- `TREND_EFFICIENCY_ENABLED = True` (source line 269). -/
def TREND_EFFICIENCY_ENABLED : Bool := true

/-- `TREND_EFFICIENCY_BOOST_THRESHOLD = 0.45` (source line 271). -/
def TREND_EFFICIENCY_BOOST_THRESHOLD : ℚ := 45/100

/-- `TREND_EFFICIENCY_PENALTY_THRESHOLD = 0.3` (source line 272). -/
def TREND_EFFICIENCY_PENALTY_THRESHOLD : ℚ := 3/10

/-- `RS_RANKING_ENABLED = True` (source line 317). -/
def RS_RANKING_ENABLED : Bool := true

/-- The columns of one snapshot row that `add_rank_score` reads. -/
structure RankRow where
  is_held : Bool
  status : String
  sleeve : String
  regime : String
  distance_to_20d_high_pct : FQ
  distance_to_55d_high_pct : FQ
  range_position_20 : FQ
  adx_14 : FQ
  vol_ratio : FQ
  extension_atr : FQ
  trend_efficiency : FQ
  rs_vs_benchmark : FQ
  deriving Repr, DecidableEq

/-- `np.clip`. -/
def clipQ (x lo hi : ℚ) : ℚ := max lo (min x hi)

/-- Source lines 4670-4685: the rank bucket (`base`), NaN for rows matching
no category mask. -/
def rankBucket (r : RankRow) : FQ :=
  if r.sleeve = "STOCK_CORE" ∧ r.regime = "TREND" then some 0
  else if r.sleeve = "STOCK_CORE" ∧ r.regime = "RANGE" then some 1
  else if r.sleeve = "ETF_CORE" then some 2
  else if r.sleeve = "STOCK_HIGH_RISK" ∧ r.regime = "TREND" then some 3
  else if r.sleeve = "STOCK_HIGH_RISK" ∧ r.regime = "RANGE" then some 4
  else none

/-- Source lines 4691-4695: the primary metric per category
(`range_position_20` is scaled by 100). -/
def rankPrimary (r : RankRow) : FQ :=
  if r.sleeve = "ETF_CORE" then r.distance_to_55d_high_pct
  else if (r.sleeve = "STOCK_CORE" ∨ r.sleeve = "STOCK_HIGH_RISK") ∧ r.regime = "TREND" then
    r.distance_to_20d_high_pct
  else if (r.sleeve = "STOCK_CORE" ∨ r.sleeve = "STOCK_HIGH_RISK") ∧ r.regime = "RANGE" then
    r.range_position_20.map (fun x => x * 100)
  else none

/-- Source lines 4708-4746: the tie-break nudges (ADX, volume ratio,
extension, trend-efficiency boost/penalty, relative-strength boost/penalty). -/
def tieBreak (r : RankRow) : ℚ :=
  (match r.adx_14 with
   | some a => -(a / 100)
   | none => 0)
  + (match r.vol_ratio with
     | some v => -(clipQ v 0 5 / 100)
     | none => 0)
  + (match r.extension_atr with
     | some e => clipQ e (-5) 5 / 1000
     | none => 0)
  + (if TREND_EFFICIENCY_ENABLED then
       match r.trend_efficiency with
       | some te =>
         (if TREND_EFFICIENCY_BOOST_THRESHOLD ≤ te then -(1/2) else 0)
           + (if te < TREND_EFFICIENCY_PENALTY_THRESHOLD then 3/10 else 0)
       | none => 0
     else 0)
  + (if RS_RANKING_ENABLED then
       match r.rs_vs_benchmark with
       | some rs =>
         (if 0 < rs then -(clipQ (rs * 200) 0 50) else 0)
           + (if rs < 0 then -(rs * 50) else 0)
       | none => 0
     else 0)

/-- Source lines 4660 and 4748-4751: `rank_score` is computed exactly for the
non-held READY/WATCH rows with a finite bucket and primary metric
(`rankable`); `none` models the NaN left in all other rows. -/
def rank_score (r : RankRow) : FQ :=
  if ¬ r.is_held ∧ (r.status = "READY" ∨ r.status = "WATCH") then
    match rankBucket r, rankPrimary r with
    | some b, some p => some (b * 1000000 + p * 1000 + tieBreak r)
    | _, _ => none
  else none

/-! ## Whipsaw kill switch, fast-follower re-entry, and the status pipeline -/

/-- `WHIPSAW_KILL_SWITCH_ENABLED = True` (source line 384). -/
def WHIPSAW_KILL_SWITCH_ENABLED : Bool := true

/-- `WHIPSAW_TRIGGER_COUNT = 2` (source line 387). -/
def WHIPSAW_TRIGGER_COUNT : ℤ := 2

/-- `WHIPSAW_PENALTY_DAYS = 60` (source line 386). -/
def WHIPSAW_PENALTY_DAYS : ℤ := 60

/-- `FAST_FOLLOWER_ENABLED = True` (source line 368). -/
def FAST_FOLLOWER_ENABLED : Bool := true

/-- `FAST_FOLLOWER_LOOKBACK_DAYS = 10` (source line 369). -/
def FAST_FOLLOWER_LOOKBACK_DAYS : ℤ := 10

/-- `FAST_FOLLOWER_VOLUME_RATIO_MIN = 2.0` (source line 370). -/
def FAST_FOLLOWER_VOLUME_MIN : ℚ := 2

/-- `FAST_FOLLOWER_REQUIRE_NEW_HIGH = True` (source line 371). -/
def FAST_FOLLOWER_REQUIRE_NEW_HIGH : Bool := true

/-- `TREND_EFFICIENCY_GATE_ENABLED = True` (source line 283). -/
def TREND_EFFICIENCY_GATE_ENABLED : Bool := true

/-- `TREND_EFFICIENCY_MIN_FOR_READY = 0.30` (source line 284). -/
def TREND_EFFICIENCY_MIN_FOR_READY : ℚ := 3/10

/-- `HEAT_CHECK_ENABLED` (heat check master switch). -/
def HEAT_CHECK_ENABLED : Bool := true

/-- The result of `check_whipsaw_blocked`. -/
structure WhipsawInfo where
  blocked : Bool
  count : ℤ
  deriving Repr, DecidableEq

/-- `check_whipsaw_blocked` (source lines 2770-2819), dates as day numbers. -/
def checkWhipsawBlocked (st : Option PosStateRec) (today : ℤ) : WhipsawInfo :=
  if ¬ WHIPSAW_KILL_SWITCH_ENABLED then ⟨false, 0⟩
  else match st with
  | none => ⟨false, 0⟩
  | some s =>
    if s.whipsaw_count < WHIPSAW_TRIGGER_COUNT then ⟨false, s.whipsaw_count⟩
    else match s.last_whipsaw_date with
    | none => ⟨false, s.whipsaw_count⟩
    | some d =>
      if today - d < WHIPSAW_PENALTY_DAYS then ⟨true, s.whipsaw_count⟩
      else ⟨false, s.whipsaw_count⟩

/-- The `fast_follower_eligible` flag of `check_fast_follower_reentry`
(source lines 2100-2174), dates as day numbers. -/
def fastFollowerEligible (row : Row) (st : Option PosStateRec) (today : ℤ) : Bool :=
  if ¬ FAST_FOLLOWER_ENABLED then false
  else if row.is_held then false
  else match st with
  | none => false
  | some s =>
    if s.last_exit_reason ≠ "STOP_HIT" then false
    else match s.last_exit_date with
    | none => false
    | some ed =>
      if FAST_FOLLOWER_LOOKBACK_DAYS < today - ed then false
      else match row.close, row.high_20 with
      | some c, some h =>
        if FAST_FOLLOWER_REQUIRE_NEW_HIGH ∧ c < h then false
        else match row.vol_ratio with
        | some v => decide (FAST_FOLLOWER_VOLUME_MIN ≤ v)
        | none => false
      | _, _ => false

/-- The status pipeline of `main` after `classify`, in source order:
trend-efficiency gate (lines 5063-5067), whipsaw kill switch (5073-5079),
fast-follower override (5199-5209), strict BULLISH-only gate (5242-5245),
validation gate (5248-5250) and heat-check downgrade (5323-5332;
`heatBlocked` is the outcome of `check_heat_check`). -/
def finalStatus (row : Row) (st : Option PosStateRec) (marketRegime : String)
    (today : ℤ) (heatBlocked : Bool) : String :=
  let s0 := row.classify_status
  let s1 := if TREND_EFFICIENCY_GATE_ENABLED ∧ s0 = "READY" then
      match row.trend_efficiency with
      | some te => if te < TREND_EFFICIENCY_MIN_FOR_READY then "WATCH" else s0
      | none => s0
    else s0
  let s2 := if (checkWhipsawBlocked st today).blocked ∧ s1 = "READY" then "WATCH" else s1
  let s3 := if fastFollowerEligible row st today ∧ ¬ row.is_held then "READY" else s2
  let s4 := if ¬ row.is_held ∧ marketRegime ≠ "BULLISH" then "IGNORE" else s3
  let s5 := if ¬ row.validation_ok ∧ ¬ row.is_held ∧ s4 = "READY" then "WATCH" else s4
  if HEAT_CHECK_ENABLED ∧ ¬ row.is_held ∧ (s5 = "READY" ∨ s5 = "WATCH") ∧ heatBlocked
      ∧ s5 = "READY" then "WATCH" else s5

/-- The profit-protection step as reached inside `computeStatefulStop` for a
held row with finite close `c` (composition of the sideways-tightening and
profit-protection stages). -/
def cssPP (row : Row) (ps : Option PosStateRec) (mr : String) (cfg : StopConfig)
    (c : ℚ) : ProfitStep :=
  profitProtect cfg row c (ps.bind (·.entry_price)) (ps.bind (·.initial_stop))
    (sidewaysTighten cfg mr row.sleeve c row.atr_14 row.stop_level).1
    (sidewaysTighten cfg mr row.sleeve c row.atr_14 row.stop_level).2

/-- The `_state_update` dict as built inside `computeStatefulStop` for a held
row with finite close `c`. -/
def cssUpdate (row : Row) (ps : Option PosStateRec) (mr : String) (cfg : StopConfig)
    (today : String) (c : ℚ) : StateUpdate :=
  { ticker := row.ticker.toUpper
    entry_price := (ps.bind (·.entry_price)).orElse (fun _ => row.t212_avg_price)
    initial_stop := (ps.bind (·.initial_stop)).orElse (fun _ => row.stop_level)
    active_stop := statefulCombine (ps.bind (·.active_stop)) (cssPP row ps mr cfg c).cand
    adds_taken := (ps.map (·.adds_taken)).getD 0
    entry_date :=
      if (ps.map (·.entry_date)).getD "" ≠ "" then (ps.map (·.entry_date)).getD ""
      else if (ps.bind (·.entry_price)).isNone then today else "" }

/-! # Theorems -/

lemma computeStatefulStop_held (row : Row) (ps : Option PosStateRec) (mr : String)
    (cfg : StopConfig) (today : String) (c : ℚ)
    (hheld : row.is_held = true) (hclose : row.close = some c) :
    computeStatefulStop row ps mr cfg today =
      { candidate_stop := (cssPP row ps mr cfg c).cand
        active_stop := statefulCombine (ps.bind (·.active_stop)) (cssPP row ps mr cfg c).cand
        stop_reason := finalStopReason (cssPP row ps mr cfg c).reason (ps.bind (·.active_stop))
          (cssPP row ps mr cfg c).cand
          (statefulCombine (ps.bind (·.active_stop)) (cssPP row ps mr cfg c).cand)
        profit_R := (cssPP row ps mr cfg c).profitR
        profit_protection_level := (cssPP row ps mr cfg c).level
        initial_R := (cssPP row ps mr cfg c).initialR
        state_update := some (cssUpdate row ps mr cfg today c)
        is_new_entry := (ps.bind (·.entry_price)).isNone } := by
  unfold computeStatefulStop
  rw [hclose, hheld]
  simp [cssPP, cssUpdate]

lemma sidewaysTighten_reason (cfg : StopConfig) (mr sl : String) (c : ℚ) (atr cand : FQ) :
    (sidewaysTighten cfg mr sl c atr cand).2 = .notSet ∨
    (sidewaysTighten cfg mr sl c atr cand).2 = .sidewaysTightened := by
  cases atr with
  | none => simp only [sidewaysTighten]; split_ifs <;> simp
  | some a => simp only [sidewaysTighten]; split_ifs <;> simp

set_option maxHeartbeats 800000 in
lemma profitProtect_reason (cfg : StopConfig) (row : Row) (c : ℚ)
    (ep ist candIn : FQ) (reasonIn : StopReason) :
    (profitProtect cfg row c ep ist candIn reasonIn).reason = reasonIn ∨
    (profitProtect cfg row c ep ist candIn reasonIn).level ≠ .notSet := by
  cases hpp : cfg.profitProtectionEnabled
  · simp [profitProtect, hpp]
  · cases ep with
    | none => simp [profitProtect, hpp]
    | some epv =>
      cases ist with
      | none => simp [profitProtect, hpp]
      | some istv =>
        simp only [profitProtect, hpp, if_true]
        by_cases hR : 0 < epv - istv
        · rw [if_pos hR]
          by_cases h1 : cfg.lock1RThreshold ≤ (c - epv) / (epv - istv)
          · rw [if_pos h1]; right; simp
          · rw [if_neg h1]
            by_cases h2 : cfg.lockHalfRThreshold ≤ (c - epv) / (epv - istv)
            · rw [if_pos h2]; right; simp
            · rw [if_neg h2]
              by_cases h3 : cfg.beTriggerR ≤ (c - epv) / (epv - istv)
              · rw [if_pos h3]
                split <;> right <;> simp
              · rw [if_neg h3]; left; rfl
        · rw [if_neg hR]; left; rfl

lemma statefulCombine_some_some (p c : ℚ) :
    statefulCombine (some p) (some c) = some (max p c) := rfl

lemma statefulCombine_some_none (p : ℚ) :
    statefulCombine (some p) none = some p := rfl

lemma statefulCombine_none (cand : FQ) : statefulCombine none cand = cand := rfl

lemma stepState_active_mono (row : Row) (st : Option PosStateRec) (mr : String)
    (cfg : StopConfig) (today : String) (p : ℚ)
    (hp : st.bind (·.active_stop) = some p) :
    ∃ q, (stepState st row mr cfg today).bind (·.active_stop) = some q ∧ p ≤ q := by
  cases hrow : row.is_held
  · exact ⟨p, by simp [stepState, hrow, hp], le_refl p⟩
  · cases hclose : row.close with
    | none =>
      refine ⟨p, ?_, le_refl p⟩
      simp [stepState, computeStatefulStop, hrow, hclose, stopOut0, hp]
    | some c =>
      obtain ⟨s, rfl⟩ : ∃ s, st = some s := by
        cases st with
        | none => simp at hp
        | some s => exact ⟨s, rfl⟩
      have hps : s.active_stop = some p := by simpa using hp
      rw [stepState, computeStatefulStop_held row (some s) mr cfg today c hrow hclose]
      simp only [hrow, if_true]
      cases hcand : (cssPP row (some s) mr cfg c).cand with
      | none =>
        refine ⟨p, ?_, le_refl p⟩
        simp [cssUpdate, stateFromUpdate, hcand, hps, statefulCombine_some_none]
      | some cand =>
        refine ⟨max p cand, ?_, le_max_left p cand⟩
        simp [cssUpdate, stateFromUpdate, hcand, hps, statefulCombine_some_some]

lemma runSeq_active_mono (cfg : StopConfig) :
    ∀ (runs : List RunInput) (st : Option PosStateRec) (p : ℚ),
    st.bind (·.active_stop) = some p →
    ∃ q, (runSeq cfg st runs).bind (·.active_stop) = some q ∧ p ≤ q
  | [], _, p, hp => ⟨p, hp, le_refl p⟩
  | i :: rest, st, p, hp => by
    obtain ⟨q, hq, hpq⟩ := stepState_active_mono i.row st i.marketRegime cfg i.today p hp
    obtain ⟨r, hr, hqr⟩ := runSeq_active_mono cfg rest _ q hq
    exact ⟨r, hr, le_trans hpq hqr⟩

/-- C6: when two benchmarks are configured, the combined regime is UNKNOWN if
either benchmark regime is UNKNOWN; otherwise it is BEARISH if either is
BEARISH, BULLISH exactly when both are BULLISH, and SIDEWAYS in the remaining
cases. -/
theorem combineRegimes_spec (r1 r2 : String) :
    ((r1 = "UNKNOWN" ∨ r2 = "UNKNOWN") → combineRegimes r1 r2 = "UNKNOWN") ∧
    (r1 ≠ "UNKNOWN" → r2 ≠ "UNKNOWN" →
      (((r1 = "BEARISH" ∨ r2 = "BEARISH") → combineRegimes r1 r2 = "BEARISH") ∧
       (combineRegimes r1 r2 = "BULLISH" ↔ (r1 = "BULLISH" ∧ r2 = "BULLISH")) ∧
       (r1 ≠ "BEARISH" → r2 ≠ "BEARISH" → ¬ (r1 = "BULLISH" ∧ r2 = "BULLISH") →
         combineRegimes r1 r2 = "SIDEWAYS"))) := by
  constructor
  · intro h
    unfold combineRegimes
    rw [if_pos h]
  · intro h1 h2
    have hu : ¬ (r1 = "UNKNOWN" ∨ r2 = "UNKNOWN") := by tauto
    refine ⟨?_, ?_, ?_⟩
    · intro hb
      unfold combineRegimes
      rw [if_neg hu, if_pos hb]
    · constructor
      · intro h
        unfold combineRegimes at h
        rw [if_neg hu] at h
        by_cases hb : r1 = "BEARISH" ∨ r2 = "BEARISH"
        · rw [if_pos hb] at h; exact absurd h (by decide)
        · rw [if_neg hb] at h
          by_cases hbu : r1 = "BULLISH" ∧ r2 = "BULLISH"
          · exact hbu
          · rw [if_neg hbu] at h; exact absurd h (by decide)
      · intro hbu
        unfold combineRegimes
        have hb : ¬ (r1 = "BEARISH" ∨ r2 = "BEARISH") := by
          rintro (hb | hb)
          · rw [hbu.1] at hb; exact absurd hb (by decide)
          · rw [hbu.2] at hb; exact absurd hb (by decide)
        rw [if_neg hu, if_neg hb, if_pos hbu]
    · intro hb1 hb2 hnotbu
      unfold combineRegimes
      have hb : ¬ (r1 = "BEARISH" ∨ r2 = "BEARISH") := by tauto
      rw [if_neg hu, if_neg hb, if_neg hnotbu]

/-- C6 witness: concrete evaluations through `combineRegimes_spec`. -/
theorem combineRegimes_spec_witness :
    combineRegimes "UNKNOWN" "BULLISH" = "UNKNOWN" ∧
    combineRegimes "BULLISH" "BEARISH" = "BEARISH" ∧
    combineRegimes "BULLISH" "SIDEWAYS" = "SIDEWAYS" :=
  ⟨(combineRegimes_spec "UNKNOWN" "BULLISH").1 (Or.inl rfl),
   (((combineRegimes_spec "BULLISH" "BEARISH").2 (by decide) (by decide)).1 (Or.inr rfl)),
   (((combineRegimes_spec "BULLISH" "SIDEWAYS").2 (by decide) (by decide)).2.2
     (by decide) (by decide) (by decide))⟩

/-- C1 counterexample: a held stock in a SIDEWAYS market whose tightened
candidate stop (17/2) is still below the previous active stop (9).  The prior
higher stop is kept, but `stop_reason` holds the earlier tightening message
`SIDEWAYS_TIGHTENED`, not the stateful-rejection message: the rejection is
recorded only when `stop_reason` is still empty (source line 3080). -/
theorem stateful_stop_reason_counterexample :
    (computeStatefulStop
      { is_held := true, ticker := "T", close := some 10, atr_14 := some 1,
        low_20 := none, high_20 := none, vol_ratio := none,
        sleeve := "STOCK_CORE", stop_level := some 5, adx_14 := none,
        regime := "TREND", holding_days := none, t212_avg_price := none,
        trend_efficiency := none, classify_status := "", validation_ok := true }
      (some
      { entry_price := none, initial_stop := none, active_stop := some 9,
        adds_taken := 0, entry_date := "", last_exit_date := none,
        last_exit_profit_R := none, last_exit_reason := "", whipsaw_count := 0,
        last_whipsaw_date := none })
      "SIDEWAYS" defaultStopConfig "2026-01-01").candidate_stop = some (17/2) ∧
    (17/2 : ℚ) < 9 ∧
    (computeStatefulStop
      { is_held := true, ticker := "T", close := some 10, atr_14 := some 1,
        low_20 := none, high_20 := none, vol_ratio := none,
        sleeve := "STOCK_CORE", stop_level := some 5, adx_14 := none,
        regime := "TREND", holding_days := none, t212_avg_price := none,
        trend_efficiency := none, classify_status := "", validation_ok := true }
      (some
      { entry_price := none, initial_stop := none, active_stop := some 9,
        adds_taken := 0, entry_date := "", last_exit_date := none,
        last_exit_profit_R := none, last_exit_reason := "", whipsaw_count := 0,
        last_whipsaw_date := none })
      "SIDEWAYS" defaultStopConfig "2026-01-01").active_stop = some 9 ∧
    (computeStatefulStop
      { is_held := true, ticker := "T", close := some 10, atr_14 := some 1,
        low_20 := none, high_20 := none, vol_ratio := none,
        sleeve := "STOCK_CORE", stop_level := some 5, adx_14 := none,
        regime := "TREND", holding_days := none, t212_avg_price := none,
        trend_efficiency := none, classify_status := "", validation_ok := true }
      (some
      { entry_price := none, initial_stop := none, active_stop := some 9,
        adds_taken := 0, entry_date := "", last_exit_date := none,
        last_exit_profit_R := none, last_exit_reason := "", whipsaw_count := 0,
        last_whipsaw_date := none })
      "SIDEWAYS" defaultStopConfig "2026-01-01").stop_reason = .sidewaysTightened ∧
    StopReason.sidewaysTightened ≠ StopReason.statefulKept := by
  rw [computeStatefulStop_held _ _ _ _ _ 10 rfl rfl]
  have hcand : (cssPP
      { is_held := true, ticker := "T", close := some 10, atr_14 := some 1,
        low_20 := none, high_20 := none, vol_ratio := none,
        sleeve := "STOCK_CORE", stop_level := some 5, adx_14 := none,
        regime := "TREND", holding_days := none, t212_avg_price := none,
        trend_efficiency := none, classify_status := "", validation_ok := true }
      (some
      { entry_price := none, initial_stop := none, active_stop := some 9,
        adds_taken := 0, entry_date := "", last_exit_date := none,
        last_exit_profit_R := none, last_exit_reason := "", whipsaw_count := 0,
        last_whipsaw_date := none })
      "SIDEWAYS" defaultStopConfig 10)
      = { cand := some (17/2), profitR := none, reason := .sidewaysTightened,
          level := .notSet, initialR := none } := by
    unfold cssPP
    have hside : sidewaysTighten defaultStopConfig "SIDEWAYS" "STOCK_CORE" (10:ℚ)
        (some 1) (some 5) = (some (17/2), StopReason.sidewaysTightened) := by
      unfold sidewaysTighten
      rw [if_pos ⟨rfl, by decide⟩]
      dsimp only
      rw [if_pos (by norm_num : (0:ℚ) < 1)]
      norm_num [defaultStopConfig, sup_eq_max, max_def]
    dsimp only
    rw [hside]
    simp [profitProtect, defaultStopConfig]
  rw [hcand]
  refine ⟨rfl, by norm_num, ?_, ?_, by decide⟩
  · show statefulCombine (some 9) (some (17/2)) = some 9
    rw [statefulCombine_some_some]
    norm_num [max_def]
  · show finalStopReason .sidewaysTightened (some 9) (some (17/2))
      (statefulCombine (some 9) (some (17/2))) = .sidewaysTightened
    unfold finalStopReason
    rw [if_neg (by decide)]

/-- C1 (amended): for every held instrument with a finite close, the final
active stop equals `max(previous_active_stop, candidate_stop)` whenever a
previous active stop exists (keeping the previous stop when the candidate is
NaN) and equals the candidate stop otherwise; hence across any sequence of
runs the persisted `active_stop` never decreases; and when the computed
candidate stop is lower than the previous active stop the prior higher stop
is kept and `stop_reason` carries either the stateful-rejection message or
the tightening / profit-protection reason already recorded earlier in the
run (the rejection message itself is written only when no earlier reason was
set). -/
theorem stateful_stop_monotone (row : Row) (ps : Option PosStateRec) (mr : String)
    (cfg : StopConfig) (today : String) (c : ℚ)
    (hheld : row.is_held = true) (hclose : row.close = some c) :
    (∀ p cand, ps.bind (·.active_stop) = some p →
        (computeStatefulStop row ps mr cfg today).candidate_stop = some cand →
        (computeStatefulStop row ps mr cfg today).active_stop = some (max p cand)) ∧
    (∀ p, ps.bind (·.active_stop) = some p →
        (computeStatefulStop row ps mr cfg today).candidate_stop = none →
        (computeStatefulStop row ps mr cfg today).active_stop = some p) ∧
    (ps.bind (·.active_stop) = none →
        (computeStatefulStop row ps mr cfg today).active_stop
          = (computeStatefulStop row ps mr cfg today).candidate_stop) ∧
    (∀ p a, ps.bind (·.active_stop) = some p →
        (computeStatefulStop row ps mr cfg today).active_stop = some a → p ≤ a) ∧
    (∀ p cand, ps.bind (·.active_stop) = some p →
        (computeStatefulStop row ps mr cfg today).candidate_stop = some cand → cand < p →
        (computeStatefulStop row ps mr cfg today).active_stop = some p ∧
        ((computeStatefulStop row ps mr cfg today).stop_reason = .statefulKept ∨
         (computeStatefulStop row ps mr cfg today).stop_reason = .sidewaysTightened ∨
         (computeStatefulStop row ps mr cfg today).profit_protection_level ≠ .notSet)) ∧
    (∀ (s0 : PosStateRec) (p : ℚ) (runs : List RunInput), s0.active_stop = some p →
        ∃ q, (runSeq cfg (some s0) runs).bind (·.active_stop) = some q ∧ p ≤ q) := by
  rw [computeStatefulStop_held row ps mr cfg today c hheld hclose]
  refine ⟨?_, ?_, ?_, ?_, ?_, ?_⟩
  · intro p cand hprev hcand
    simp only at hcand ⊢
    rw [hprev, hcand, statefulCombine_some_some]
  · intro p hprev hcand
    simp only at hcand ⊢
    rw [hprev, hcand, statefulCombine_some_none]
  · intro hprev
    simp only
    rw [hprev, statefulCombine_none]
  · intro p a hprev hact
    simp only at hact
    rw [hprev] at hact
    cases hcand : (cssPP row ps mr cfg c).cand with
    | none =>
      rw [hcand, statefulCombine_some_none] at hact
      exact le_of_eq (Option.some.inj hact)
    | some cand =>
      rw [hcand, statefulCombine_some_some] at hact
      rw [← Option.some.inj hact]
      exact le_max_left p cand
  · intro p cand hprev hcand hlt
    simp only at hcand ⊢
    rw [hprev, hcand, statefulCombine_some_some]
    have hmax : max p cand = p := max_eq_left hlt.le
    refine ⟨by rw [hmax], ?_⟩
    by_cases hres : (cssPP row ps mr cfg c).reason = .notSet
    · left
      unfold finalStopReason
      rw [if_pos hres]
      dsimp only
      rw [hmax, if_pos hlt]
    · unfold finalStopReason
      rw [if_neg hres]
      simp only [cssPP] at hres ⊢
      rcases profitProtect_reason cfg row c (ps.bind (·.entry_price))
          (ps.bind (·.initial_stop))
          (sidewaysTighten cfg mr row.sleeve c row.atr_14 row.stop_level).1
          (sidewaysTighten cfg mr row.sleeve c row.atr_14 row.stop_level).2 with h | h
      · rcases sidewaysTighten_reason cfg mr row.sleeve c row.atr_14 row.stop_level with h2 | h2
        · exact absurd (h.trans h2) hres
        · right; left
          rw [h, h2]
      · right; right
        exact h
  · intro s0 p runs hp
    exact runSeq_active_mono cfg runs (some s0) p (by simpa using hp)

/-- C1 witness: a held row with close 10, candidate stop 5 and previous
active stop 4 gets active stop `max 4 5 = 5`, through
`stateful_stop_monotone`. -/
theorem stateful_stop_monotone_witness :
    (computeStatefulStop
      { is_held := true, ticker := "W", close := some 10, atr_14 := none,
        low_20 := none, high_20 := none, vol_ratio := none,
        sleeve := "STOCK_CORE", stop_level := some 5, adx_14 := none,
        regime := "TREND", holding_days := none, t212_avg_price := none,
        trend_efficiency := none, classify_status := "", validation_ok := true }
      (some
      { entry_price := none, initial_stop := none, active_stop := some 4,
        adds_taken := 0, entry_date := "", last_exit_date := none,
        last_exit_profit_R := none, last_exit_reason := "", whipsaw_count := 0,
        last_whipsaw_date := none })
      "BULLISH" defaultStopConfig "x").active_stop = some 5 := by
  have hc : (computeStatefulStop
      { is_held := true, ticker := "W", close := some 10, atr_14 := none,
        low_20 := none, high_20 := none, vol_ratio := none,
        sleeve := "STOCK_CORE", stop_level := some 5, adx_14 := none,
        regime := "TREND", holding_days := none, t212_avg_price := none,
        trend_efficiency := none, classify_status := "", validation_ok := true }
      (some
      { entry_price := none, initial_stop := none, active_stop := some 4,
        adds_taken := 0, entry_date := "", last_exit_date := none,
        last_exit_profit_R := none, last_exit_reason := "", whipsaw_count := 0,
        last_whipsaw_date := none })
      "BULLISH" defaultStopConfig "x").candidate_stop = some 5 := by
    rw [computeStatefulStop_held _ _ _ _ _ 10 rfl rfl]
    simp [cssPP, sidewaysTighten, profitProtect, defaultStopConfig]
  have h := (stateful_stop_monotone
      { is_held := true, ticker := "W", close := some 10, atr_14 := none,
        low_20 := none, high_20 := none, vol_ratio := none,
        sleeve := "STOCK_CORE", stop_level := some 5, adx_14 := none,
        regime := "TREND", holding_days := none, t212_avg_price := none,
        trend_efficiency := none, classify_status := "", validation_ok := true }
      (some
      { entry_price := none, initial_stop := none, active_stop := some 4,
        adds_taken := 0, entry_date := "", last_exit_date := none,
        last_exit_profit_R := none, last_exit_reason := "", whipsaw_count := 0,
        last_whipsaw_date := none })
      "BULLISH" defaultStopConfig "x" 10 rfl rfl).1 4 5 rfl hc
  rw [h]
  norm_num [max_def]

lemma profitProtect_breakeven_default (row : Row) (r0 : StopReason) (c' : ℚ)
    (hc' : c' ≤ 100) :
    profitProtect defaultStopConfig row (215/2) (some 100) (some 95) (some c') r0
      = { cand := some 100, profitR := some (3/2), reason := .breakeven (3/2) 100,
          level := .breakeven (3/2), initialR := some 5 } := by
  unfold profitProtect defaultStopConfig
  norm_num
  simp [max_eq_right hc']

lemma profitProtect_breakeven_blocked (row : Row) (r0 : StopReason) (candIn : FQ)
    (hreg : row.regime = "RANGE") :
    profitProtect { defaultStopConfig with beConditionMode := "trend_only" } row (215/2)
        (some 100) (some 95) candIn r0
      = { cand := candIn, profitR := some (3/2),
          reason := .beBlocked (.regimeNotTrend "RANGE"), level := .beBlocked,
          initialR := some 5 } := by
  unfold profitProtect defaultStopConfig
  norm_num [hreg]
  simp

/-- C3: a held instrument with entry 100, initial stop 95 (R = 5) and close
107.50 has `profit_R = 1.5`; with the default configuration (breakeven trigger
1.5R, no gating condition) and both the previous active stop and the candidate
stop at most 100 (including any SIDEWAYS-tightened candidate), the resulting
active stop is raised to exactly 100 (breakeven).  With a configured gating
condition (`trend_only`) that fails (regime RANGE), the breakeven move is
skipped: the candidate stop is left unchanged and the blocking reason is
recorded in `stop_reason` / `profit_protection_level`. -/
theorem breakeven_scenario (row : Row) (s : PosStateRec) (marketRegime today : String)
    (p sl : ℚ)
    (hheld : row.is_held = true)
    (hclose : row.close = some (215/2))
    (hentry : s.entry_price = some 100)
    (hinit : s.initial_stop = some 95)
    (hprev : s.active_stop = some p) (hp : p ≤ 100)
    (hsl : row.stop_level = some sl) (hsl100 : sl ≤ 100)
    (hchop : marketRegime = "SIDEWAYS" →
      ∀ a, row.atr_14 = some a → 0 < a → (215/2 : ℚ) - (3/2) * a ≤ 100) :
    ((computeStatefulStop row (some s) marketRegime defaultStopConfig today).profit_R
        = some (3/2) ∧
     (computeStatefulStop row (some s) marketRegime defaultStopConfig today).active_stop
        = some 100 ∧
     (computeStatefulStop row (some s) marketRegime
        defaultStopConfig today).profit_protection_level = .breakeven (3/2)) ∧
    (row.regime = "RANGE" → marketRegime ≠ "SIDEWAYS" →
     (computeStatefulStop row (some s) marketRegime
        { defaultStopConfig with beConditionMode := "trend_only" }
        today).profit_protection_level = .beBlocked ∧
     (computeStatefulStop row (some s) marketRegime
        { defaultStopConfig with beConditionMode := "trend_only" } today).stop_reason
        = .beBlocked (.regimeNotTrend "RANGE") ∧
     (computeStatefulStop row (some s) marketRegime
        { defaultStopConfig with beConditionMode := "trend_only" } today).candidate_stop
        = row.stop_level) := by
  have hbe : (some s : Option PosStateRec).bind (·.entry_price) = some 100 := by
    simp [hentry]
  have hbi : (some s : Option PosStateRec).bind (·.initial_stop) = some 95 := by
    simp [hinit]
  have hba : (some s : Option PosStateRec).bind (·.active_stop) = some p := by
    simp [hprev]
  constructor
  · rw [computeStatefulStop_held row (some s) marketRegime defaultStopConfig today
      (215/2) hheld hclose]
    obtain ⟨c', hc', hcle⟩ : ∃ c',
        (sidewaysTighten defaultStopConfig marketRegime row.sleeve (215/2) row.atr_14
          row.stop_level).1 = some c' ∧ c' ≤ 100 := by
      cases hatr : row.atr_14 with
      | none =>
        refine ⟨sl, ?_, hsl100⟩
        unfold sidewaysTighten
        split_ifs <;> simp [hsl]
      | some a =>
        rw [hsl]
        unfold sidewaysTighten
        dsimp only
        split_ifs with h1 h2
        · refine ⟨max sl ((215:ℚ)/2 - defaultStopConfig.chopAtrTighteningMult * a),
            rfl, ?_⟩
          have hch := hchop h1.1 a hatr h2
          have hmult : defaultStopConfig.chopAtrTighteningMult = 3/2 := rfl
          rw [hmult]
          exact max_le hsl100 hch
        · exact ⟨sl, rfl, hsl100⟩
        · exact ⟨sl, rfl, hsl100⟩
    have hpp : cssPP row (some s) marketRegime defaultStopConfig (215/2)
        = { cand := some 100, profitR := some (3/2), reason := .breakeven (3/2) 100,
            level := .breakeven (3/2), initialR := some 5 } := by
      unfold cssPP
      rw [hbe, hbi, hc']
      exact profitProtect_breakeven_default row _ c' hcle
    refine ⟨by simp [hpp], ?_, by simp [hpp]⟩
    simp only [hpp, hba]
    rw [statefulCombine_some_some]
    rw [max_eq_right hp]
  · intro hreg hmr
    rw [computeStatefulStop_held row (some s) marketRegime
      { defaultStopConfig with beConditionMode := "trend_only" } today (215/2) hheld hclose]
    have hcond : ¬ (marketRegime = "SIDEWAYS" ∧ row.sleeve ≠ "ETF_CORE") :=
      fun h => hmr h.1
    have hside2 : sidewaysTighten { defaultStopConfig with beConditionMode := "trend_only" }
        marketRegime row.sleeve (215/2) row.atr_14 row.stop_level
        = (row.stop_level, .notSet) := by
      unfold sidewaysTighten
      rw [if_neg hcond]
    have hpp2 : cssPP row (some s) marketRegime
        { defaultStopConfig with beConditionMode := "trend_only" } (215/2)
        = { cand := row.stop_level, profitR := some (3/2),
            reason := .beBlocked (.regimeNotTrend "RANGE"), level := .beBlocked,
            initialR := some 5 } := by
      unfold cssPP
      rw [hbe, hbi, hside2]
      exact profitProtect_breakeven_blocked row _ row.stop_level hreg
    refine ⟨by simp [hpp2], ?_, by simp [hpp2]⟩
    simp only [hpp2]
    unfold finalStopReason
    rw [if_neg (by simp)]

/-- C3 witness: concrete instantiation of `breakeven_scenario`: entry 100,
stop 95, close 107.50, previous active stop 96, candidate stop 96, regime
RANGE, BULLISH market. -/
theorem breakeven_scenario_witness :
    (computeStatefulStop
      { is_held := true, ticker := "B", close := some (215/2), atr_14 := some 2,
        low_20 := some 90, high_20 := some 108, vol_ratio := some 1,
        sleeve := "STOCK_CORE", stop_level := some 96, adx_14 := some 25,
        regime := "RANGE", holding_days := some 3, t212_avg_price := none,
        trend_efficiency := none, classify_status := "", validation_ok := true }
      (some
      { entry_price := some 100, initial_stop := some 95, active_stop := some 96,
        adds_taken := 0, entry_date := "2026-01-01", last_exit_date := none,
        last_exit_profit_R := none, last_exit_reason := "", whipsaw_count := 0,
        last_whipsaw_date := none })
      "BULLISH" defaultStopConfig "2026-02-02").active_stop = some 100 ∧
    (computeStatefulStop
      { is_held := true, ticker := "B", close := some (215/2), atr_14 := some 2,
        low_20 := some 90, high_20 := some 108, vol_ratio := some 1,
        sleeve := "STOCK_CORE", stop_level := some 96, adx_14 := some 25,
        regime := "RANGE", holding_days := some 3, t212_avg_price := none,
        trend_efficiency := none, classify_status := "", validation_ok := true }
      (some
      { entry_price := some 100, initial_stop := some 95, active_stop := some 96,
        adds_taken := 0, entry_date := "2026-01-01", last_exit_date := none,
        last_exit_profit_R := none, last_exit_reason := "", whipsaw_count := 0,
        last_whipsaw_date := none })
      "BULLISH" { defaultStopConfig with beConditionMode := "trend_only" }
      "2026-02-02").profit_protection_level = .beBlocked := by
  have h := breakeven_scenario
      { is_held := true, ticker := "B", close := some (215/2), atr_14 := some 2,
        low_20 := some 90, high_20 := some 108, vol_ratio := some 1,
        sleeve := "STOCK_CORE", stop_level := some 96, adx_14 := some 25,
        regime := "RANGE", holding_days := some 3, t212_avg_price := none,
        trend_efficiency := none, classify_status := "", validation_ok := true }
      { entry_price := some 100, initial_stop := some 95, active_stop := some 96,
        adds_taken := 0, entry_date := "2026-01-01", last_exit_date := none,
        last_exit_profit_R := none, last_exit_reason := "", whipsaw_count := 0,
        last_whipsaw_date := none }
      "BULLISH" "2026-02-02" 96 96 rfl rfl rfl rfl rfl (by norm_num) rfl (by norm_num)
      (fun hmr => absurd hmr (by decide))
  exact ⟨h.1.2.1, (h.2 rfl (by decide)).1⟩

/-- C10 (code bug): updating the persisted record for a held instrument
replaces the whole record with the five entry/stop keys of `_state_update`
(source lines 5109-5115), so the exit-history fields are wiped: a record with
`whipsaw_count = 2` and `last_exit_reason = "STOP_HIT"` comes out of the run
with `whipsaw_count = 0`, empty exit reason and no exit dates, which is what
`write_positions_state` then persists. -/
theorem held_update_wipes_exit_history :
    ∃ s2, stepState
      (some
      { entry_price := some 100, initial_stop := some 95, active_stop := some 97,
        adds_taken := 1, entry_date := "2025-11-03",
        last_exit_date := some 700, last_exit_profit_R := some 2,
        last_exit_reason := "STOP_HIT", whipsaw_count := 2,
        last_whipsaw_date := some 710 })
      { is_held := true, ticker := "ABC", close := some 110, atr_14 := none,
        low_20 := none, high_20 := none, vol_ratio := none,
        sleeve := "STOCK_CORE", stop_level := some 100, adx_14 := none,
        regime := "TREND", holding_days := none, t212_avg_price := none,
        trend_efficiency := none, classify_status := "", validation_ok := true }
      "BULLISH" defaultStopConfig "2026-01-05" = some s2 ∧
      s2.whipsaw_count = 0 ∧ s2.last_whipsaw_date = none ∧
      s2.last_exit_reason = "" ∧ s2.last_exit_date = none ∧
      s2.last_exit_profit_R = none ∧
      (PosStateRec.whipsaw_count
      { entry_price := some 100, initial_stop := some 95, active_stop := some 97,
        adds_taken := 1, entry_date := "2025-11-03",
        last_exit_date := some 700, last_exit_profit_R := some 2,
        last_exit_reason := "STOP_HIT", whipsaw_count := 2,
        last_whipsaw_date := some 710 }) = 2 ∧
      (PosStateRec.last_exit_reason
      { entry_price := some 100, initial_stop := some 95, active_stop := some 97,
        adds_taken := 1, entry_date := "2025-11-03",
        last_exit_date := some 700, last_exit_profit_R := some 2,
        last_exit_reason := "STOP_HIT", whipsaw_count := 2,
        last_whipsaw_date := some 710 }) = "STOP_HIT" := by
  refine ⟨stateFromUpdate (cssUpdate
      { is_held := true, ticker := "ABC", close := some 110, atr_14 := none,
        low_20 := none, high_20 := none, vol_ratio := none,
        sleeve := "STOCK_CORE", stop_level := some 100, adx_14 := none,
        regime := "TREND", holding_days := none, t212_avg_price := none,
        trend_efficiency := none, classify_status := "", validation_ok := true }
      (some
      { entry_price := some 100, initial_stop := some 95, active_stop := some 97,
        adds_taken := 1, entry_date := "2025-11-03",
        last_exit_date := some 700, last_exit_profit_R := some 2,
        last_exit_reason := "STOP_HIT", whipsaw_count := 2,
        last_whipsaw_date := some 710 })
      "BULLISH" defaultStopConfig "2026-01-05" 110),
    ?_, rfl, rfl, rfl, rfl, rfl, rfl, rfl⟩
  unfold stepState
  rw [computeStatefulStop_held _ _ _ _ _ 110 rfl rfl]
  rfl

/-- C4 counterexample: a non-held instrument that is whipsaw-blocked
(`whipsaw_count = 2`, last whipsaw 10 days ago, inside the 60-day penalty)
and fast-follower eligible (stop-hit exit 5 days ago, close at the 20-day
high, volume ratio 3) ends the run with status READY: the fast-follower
override (source lines 5207-5209) runs after the whipsaw downgrade (lines
5077-5079) and overwrites it. -/
theorem whipsaw_fast_follower_counterexample :
    (checkWhipsawBlocked (some
      { entry_price := none, initial_stop := none, active_stop := none,
        adds_taken := 0, entry_date := "",
        last_exit_date := some 95, last_exit_profit_R := some (-1),
        last_exit_reason := "STOP_HIT", whipsaw_count := 2,
        last_whipsaw_date := some 90 }) 100).blocked = true ∧
    fastFollowerEligible
      { is_held := false, ticker := "XYZ", close := some 50, atr_14 := some 1,
        low_20 := some 45, high_20 := some 49, vol_ratio := some 3,
        sleeve := "STOCK_CORE", stop_level := some 45, adx_14 := some 30,
        regime := "TREND", holding_days := none, t212_avg_price := none,
        trend_efficiency := some (1/2), classify_status := "WATCH",
        validation_ok := true }
      (some
      { entry_price := none, initial_stop := none, active_stop := none,
        adds_taken := 0, entry_date := "",
        last_exit_date := some 95, last_exit_profit_R := some (-1),
        last_exit_reason := "STOP_HIT", whipsaw_count := 2,
        last_whipsaw_date := some 90 }) 100 = true ∧
    finalStatus
      { is_held := false, ticker := "XYZ", close := some 50, atr_14 := some 1,
        low_20 := some 45, high_20 := some 49, vol_ratio := some 3,
        sleeve := "STOCK_CORE", stop_level := some 45, adx_14 := some 30,
        regime := "TREND", holding_days := none, t212_avg_price := none,
        trend_efficiency := some (1/2), classify_status := "WATCH",
        validation_ok := true }
      (some
      { entry_price := none, initial_stop := none, active_stop := none,
        adds_taken := 0, entry_date := "",
        last_exit_date := some 95, last_exit_profit_R := some (-1),
        last_exit_reason := "STOP_HIT", whipsaw_count := 2,
        last_whipsaw_date := some 90 }) "BULLISH" 100 false = "READY" := by
  refine ⟨rfl, rfl, rfl⟩

/-- C4 amended: the whipsaw block keeps the final status away from READY only
when the fast-follower override does not fire; the fast-follower override,
running later in the pipeline, takes precedence over the whipsaw block. -/
theorem whipsaw_block_final_status (row : Row) (st : Option PosStateRec)
    (marketRegime : String) (today : ℤ) (heatBlocked : Bool)
    (hheld : row.is_held = false)
    (hwb : (checkWhipsawBlocked st today).blocked = true)
    (hff : fastFollowerEligible row st today = false) :
    finalStatus row st marketRegime today heatBlocked ≠ "READY" := by
  unfold finalStatus
  simp only [hheld, hwb, hff, Bool.false_eq_true, false_and, if_false,
    Bool.not_eq_true, not_false_iff, true_and, TREND_EFFICIENCY_GATE_ENABLED,
    HEAT_CHECK_ENABLED]
  intro hcontra
  revert hcontra
  split_ifs <;> simp_all

/-- C4 amended witness: a whipsaw-blocked instrument whose fast-follower
conditions fail (volume ratio too low) never ends READY. -/
theorem whipsaw_block_final_status_witness :
    finalStatus
      { is_held := false, ticker := "XYZ", close := some 50, atr_14 := some 1,
        low_20 := some 45, high_20 := some 49, vol_ratio := some 1,
        sleeve := "STOCK_CORE", stop_level := some 45, adx_14 := some 30,
        regime := "TREND", holding_days := none, t212_avg_price := none,
        trend_efficiency := some (1/2), classify_status := "READY",
        validation_ok := true }
      (some
      { entry_price := none, initial_stop := none, active_stop := none,
        adds_taken := 0, entry_date := "",
        last_exit_date := some 95, last_exit_profit_R := some (-1),
        last_exit_reason := "STOP_HIT", whipsaw_count := 2,
        last_whipsaw_date := some 90 }) "BULLISH" 100 false ≠ "READY" :=
  whipsaw_block_final_status _ _ _ _ _ rfl rfl rfl

lemma chopCountLoop_nil (b : ℚ) : chopCountLoop b [] = 0 := rfl

lemma chopCountLoop_cons_none (b c : ℚ) (rest : List (ℚ × FQ)) :
    chopCountLoop b ((c, none) :: rest) = 0 := rfl

lemma chopCountLoop_cons_some (b c m : ℚ) (rest : List (ℚ × FQ)) :
    chopCountLoop b ((c, some m) :: rest)
      = if m ≤ 0 then 0
        else if (1 - b) * m ≤ c ∧ c ≤ (1 + b) * m then chopCountLoop b rest + 1
        else 0 := rfl

lemma chopCountLoop_le_length (b : ℚ) : ∀ l : List (ℚ × FQ), chopCountLoop b l ≤ l.length
  | [] => by simp [chopCountLoop_nil]
  | (_, none) :: _ => by simp [chopCountLoop_cons_none]
  | (c, some m) :: rest => by
    have ih := chopCountLoop_le_length b rest
    rw [chopCountLoop_cons_some]
    split_ifs <;> simp <;> omega

lemma chopCountLoop_cons_le (b : ℚ) (x : ℚ × FQ) (tail : List (ℚ × FQ)) :
    chopCountLoop b (x :: tail) ≤ chopCountLoop b tail + 1 := by
  obtain ⟨c, ma⟩ := x
  match ma with
  | none => simp [chopCountLoop_cons_none]
  | some m =>
    rw [chopCountLoop_cons_some]
    split_ifs <;> omega

lemma chopCountLoop_break (b c1 m1 : ℚ) (rest : List (ℚ × FQ))
    (hout : m1 ≤ 0 ∨ ¬ ((1 - b) * m1 ≤ c1 ∧ c1 ≤ (1 + b) * m1)) :
    chopCountLoop b ((c1, some m1) :: rest) = 0 := by
  rw [chopCountLoop_cons_some]
  rcases hout with h | h
  · rw [if_pos h]
  · split_ifs <;> first | rfl | exact absurd (by assumption) h

/-- If the bar before the latest one lies outside its chop band, the
counting loop stops after at most the latest bar. -/
lemma chopBandCount_le_one (b : ℚ) (p0 : ℚ × FQ) (c1 m1 : ℚ)
    (rest : List (ℚ × FQ))
    (hout : ¬ ((1 - b) * m1 ≤ c1 ∧ c1 ≤ (1 + b) * m1)) :
    chopBandCount b REGIME_STABILITY_DAYS (p0 :: (c1, some m1) :: rest) ≤ 1 := by
  unfold chopBandCount REGIME_STABILITY_DAYS
  match rest with
  | [] =>
    calc chopCountLoop b ((p0 :: (c1, some m1) :: ([] : List (ℚ × FQ))).take
            (min (3 + 2) (p0 :: (c1, some m1) :: ([] : List (ℚ × FQ))).length - 1))
        ≤ ((p0 :: (c1, some m1) :: ([] : List (ℚ × FQ))).take
            (min (3 + 2) (p0 :: (c1, some m1) :: ([] : List (ℚ × FQ))).length - 1)).length :=
          chopCountLoop_le_length b _
      _ ≤ 1 := by simp
  | r :: rs =>
    obtain ⟨k, hk⟩ : ∃ k, min (3 + 2) (p0 :: (c1, some m1) :: r :: rs).length - 1 = k + 2 := by
      refine ⟨min (3 + 2) (p0 :: (c1, some m1) :: r :: rs).length - 3, ?_⟩
      simp only [List.length_cons]
      omega
    rw [hk, List.take_succ_cons, List.take_succ_cons]
    calc chopCountLoop b (p0 :: (c1, some m1) :: List.take k (r :: rs))
        ≤ chopCountLoop b ((c1, some m1) :: List.take k (r :: rs)) + 1 :=
          chopCountLoop_cons_le ..
      _ = 0 + 1 := by rw [chopCountLoop_break b c1 m1 _ (Or.inr hout)]
      _ ≤ 1 := le_refl 1

/-- Branch characterization of `oneRegimeCore` with the stability switch on. -/
lemma oneRegimeCore_eq (b c m : ℚ) (bars : List (ℚ × FQ)) :
    oneRegimeCore b c m bars =
      (if (1 + b) * m ≤ c then
        ⟨"BULLISH", true, chopBandCount b REGIME_STABILITY_DAYS bars⟩
       else if c ≤ (1 - b) * m then
        ⟨"BEARISH", true, chopBandCount b REGIME_STABILITY_DAYS bars⟩
       else if chopBandCount b REGIME_STABILITY_DAYS bars < REGIME_STABILITY_DAYS then
        (if m < c then ⟨"BULLISH", false, chopBandCount b REGIME_STABILITY_DAYS bars⟩
         else ⟨"BEARISH", false, chopBandCount b REGIME_STABILITY_DAYS bars⟩)
       else ⟨"SIDEWAYS", true, chopBandCount b REGIME_STABILITY_DAYS bars⟩) := by
  unfold oneRegimeCore REGIME_STABILITY_ENABLED
  by_cases h1 : (1 + b) * m ≤ c
  · simp [h1]
  · by_cases h2 : c ≤ (1 - b) * m
    · simp [h1, h2]
    · by_cases h3 : chopBandCount b REGIME_STABILITY_DAYS bars < REGIME_STABILITY_DAYS
      · by_cases h4 : m < c
        · simp [h1, h2, h3, h4]
        · simp [h1, h2, h3, h4]
      · simp [h1, h2, h3]

/-- C7: with fresh data and a valid MA200, the regime is SIDEWAYS only when at
least `REGIME_STABILITY_DAYS = 3` consecutive most-recent days lie inside the
chop band; inside the band with fewer consecutive days the regime resolves
directionally (BULLISH when close > MA200, else BEARISH) and is marked
unstable; a single day crossing back into the band (previous bar outside its
band) never yields SIDEWAYS; and a close above the upper band yields BULLISH
immediately, with no stability delay. -/
theorem regime_stability_spec (bandPct close ma200 : ℚ) (bars : List (ℚ × FQ))
    (hma : 0 < ma200) :
    ((oneRegimeCore bandPct close ma200 bars).regime = "SIDEWAYS" →
        REGIME_STABILITY_DAYS ≤ (oneRegimeCore bandPct close ma200 bars).daysInChopBand ∧
        (1 - bandPct) * ma200 < close ∧ close < (1 + bandPct) * ma200) ∧
    ((1 - bandPct) * ma200 < close → close < (1 + bandPct) * ma200 →
        chopBandCount bandPct REGIME_STABILITY_DAYS bars < REGIME_STABILITY_DAYS →
        (oneRegimeCore bandPct close ma200 bars).regime
            = (if ma200 < close then "BULLISH" else "BEARISH") ∧
          (oneRegimeCore bandPct close ma200 bars).stable = false) ∧
    (∀ p0 c1 m1 rest, bars = p0 :: (c1, some m1) :: rest →
        ¬ ((1 - bandPct) * m1 ≤ c1 ∧ c1 ≤ (1 + bandPct) * m1) →
        (oneRegimeCore bandPct close ma200 bars).regime ≠ "SIDEWAYS") ∧
    ((1 + bandPct) * ma200 < close →
        (oneRegimeCore bandPct close ma200 bars).regime = "BULLISH" ∧
        (oneRegimeCore bandPct close ma200 bars).stable = true) := by
  rw [oneRegimeCore_eq]
  refine ⟨?_, ?_, ?_, ?_⟩
  · intro hreg
    split_ifs at hreg ⊢ with h1 h2 h3 h4 <;> simp_all
  · intro hlo hhi hdays
    have h1 : ¬ ((1 + bandPct) * ma200 ≤ close) := not_le.mpr hhi
    have h2 : ¬ (close ≤ (1 - bandPct) * ma200) := not_le.mpr hlo
    rw [if_neg h1, if_neg h2, if_pos hdays]
    by_cases h4 : ma200 < close
    · simp [h4]
    · simp [h4]
  · intro p0 c1 m1 rest heq hout
    have hle : chopBandCount bandPct REGIME_STABILITY_DAYS bars ≤ 1 := by
      rw [heq]; exact chopBandCount_le_one bandPct p0 c1 m1 rest hout
    have hR : REGIME_STABILITY_DAYS = 3 := rfl
    have hdays : chopBandCount bandPct REGIME_STABILITY_DAYS bars < REGIME_STABILITY_DAYS := by
      omega
    split_ifs with h1 h2 h4 <;> simp_all
  · intro hup
    have h1 : (1 + bandPct) * ma200 ≤ close := le_of_lt hup
    rw [if_pos h1]
    exact ⟨rfl, rfl⟩

/-- C7 witness: a benchmark at 105 with MA200 = 100 under a 2 percent band is
BULLISH immediately; one inside the band with only yesterday outside is
directional-unstable, not SIDEWAYS. -/
theorem regime_stability_spec_witness :
    ((oneRegimeCore (1/50) 105 100 [(105, some 100)]).regime = "BULLISH" ∧
      (oneRegimeCore (1/50) 105 100 [(105, some 100)]).stable = true) ∧
    ((oneRegimeCore (1/50) 101 100 [(101, some 100), (104, some 100), (100, some 100)]).regime
        = "BULLISH" ∧
      (oneRegimeCore (1/50) 101 100 [(101, some 100), (104, some 100), (100, some 100)]).stable
        = false) ∧
    (oneRegimeCore (1/50) 101 100 [(101, some 100), (104, some 100), (100, some 100)]).regime
        ≠ "SIDEWAYS" := by
  have hcount : chopBandCount (1/50) REGIME_STABILITY_DAYS
      [(101, some 100), (104, some 100), (100, some 100)] = 1 := by
    have hR : REGIME_STABILITY_DAYS = 3 := rfl
    rw [hR]
    norm_num [chopBandCount, chopCountLoop_cons_some, chopCountLoop_nil, List.take]
  refine ⟨?_, ?_, ?_⟩
  · exact (regime_stability_spec (1/50) 105 100 [(105, some 100)] (by norm_num)).2.2.2
      (by norm_num)
  · have h := (regime_stability_spec (1/50) 101 100
      [(101, some 100), (104, some 100), (100, some 100)] (by norm_num)).2.1
      (by norm_num) (by norm_num) (by rw [hcount]; norm_num [REGIME_STABILITY_DAYS])
    have h4 : (100 : ℚ) < 101 := by norm_num
    rw [if_pos h4] at h
    exact h
  · exact (regime_stability_spec (1/50) 101 100
      [(101, some 100), (104, some 100), (100, some 100)] (by norm_num)).2.2.1
      (101, some 100) 104 100 [(100, some 100)] rfl (by norm_num)

/-- C9: an instrument whose series is empty, has fewer than 230 bars, or whose
last bar is older than the maximum data age is skipped: the run emits no
output row for it but records a skip entry with a reason, and every other
instrument is evaluated normally, independently of the skipped ones
(the output rows are exactly the evaluations of the non-skipped instruments,
for every evaluation function). -/
theorem skip_semantics {Rowt : Type} (data : UInstr → SeriesInfo) (eval : UInstr → Rowt)
    (maxAge : ℤ) (univ : List UInstr) :
    (processUniverse data eval maxAge univ).1
      = (univ.filter (fun u => (skipCheck maxAge (data u)).isNone)).map eval ∧
    (processUniverse data eval maxAge univ).2
      = univ.filterMap (fun u => (skipCheck maxAge (data u)).map
          (fun r => { ticker := u.ticker, ticker_yf := u.ticker_yf, reason := r })) ∧
    (∀ d : SeriesInfo, (skipCheck maxAge d).isSome ↔
        (d.numBars = 0 ∨ d.numBars < 230 ∨ maxAge < d.ageDays)) := by
  refine ⟨?_, ?_, ?_⟩
  · induction univ with
    | nil => rfl
    | cons u rest ih =>
      cases hchk : skipCheck maxAge (data u) <;>
        simp [processUniverse, hchk, List.filter_cons, ih]
  · induction univ with
    | nil => rfl
    | cons u rest ih =>
      cases hchk : skipCheck maxAge (data u) <;>
        simp [processUniverse, hchk, List.filterMap_cons, ih]
  · intro d
    unfold skipCheck
    split_ifs with h1 h2 <;> simp_all <;> omega

lemma keepMinPrio_foldl (l : List UInstr) (b : UInstr) :
    ∃ m, l.foldl (fun acc r => match acc with
        | none => some r
        | some bb =>
          if SLEEVE_PRIORITY r.sleeve < SLEEVE_PRIORITY bb.sleeve then some r else acc)
        (some b) = some m ∧ (m = b ∨ m ∈ l) ∧
      SLEEVE_PRIORITY m.sleeve ≤ SLEEVE_PRIORITY b.sleeve ∧
      ∀ x ∈ l, SLEEVE_PRIORITY m.sleeve ≤ SLEEVE_PRIORITY x.sleeve := by
  induction l generalizing b with
  | nil => exact ⟨b, rfl, Or.inl rfl, le_refl _, by simp⟩
  | cons x rest ih =>
    rw [List.foldl_cons]
    by_cases h : SLEEVE_PRIORITY x.sleeve < SLEEVE_PRIORITY b.sleeve
    · rw [show (match some b with
          | none => some x
          | some bb =>
            if SLEEVE_PRIORITY x.sleeve < SLEEVE_PRIORITY bb.sleeve then some x
            else some b) = some x from by dsimp only; rw [if_pos h]]
      obtain ⟨m, hm, hmem, hle, hall⟩ := ih x
      refine ⟨m, hm, ?_, le_trans hle h.le, ?_⟩
      · rcases hmem with h2 | h2
        · exact Or.inr (h2 ▸ List.mem_cons_self x rest)
        · exact Or.inr (List.mem_cons_of_mem x h2)
      · intro y hy
        rcases List.mem_cons.mp hy with h2 | h2
        · exact h2 ▸ hle
        · exact hall y h2
    · rw [show (match some b with
          | none => some x
          | some bb =>
            if SLEEVE_PRIORITY x.sleeve < SLEEVE_PRIORITY bb.sleeve then some x
            else some b) = some b from by dsimp only; rw [if_neg h]]
      obtain ⟨m, hm, hmem, hle, hall⟩ := ih b
      refine ⟨m, hm, ?_, hle, ?_⟩
      · rcases hmem with h2 | h2
        · exact Or.inl h2
        · exact Or.inr (List.mem_cons_of_mem x h2)
      · intro y hy
        rcases List.mem_cons.mp hy with h2 | h2
        · exact h2 ▸ le_trans hle (not_lt.mp h)
        · exact hall y h2

lemma keepMinPrio_spec (g : List UInstr) (hg : g ≠ []) :
    ∃ m, keepMinPrio g = some m ∧ m ∈ g ∧
      ∀ x ∈ g, SLEEVE_PRIORITY m.sleeve ≤ SLEEVE_PRIORITY x.sleeve := by
  match g, hg with
  | x :: rest, _ =>
    unfold keepMinPrio
    rw [List.foldl_cons]
    obtain ⟨m, hm, hmem, hle, hall⟩ := keepMinPrio_foldl rest x
    refine ⟨m, hm, ?_, ?_⟩
    · rcases hmem with h2 | h2
      · exact h2 ▸ List.mem_cons_self x rest
      · exact List.mem_cons_of_mem x h2
    · intro y hy
      rcases List.mem_cons.mp hy with h2 | h2
      · exact h2 ▸ hle
      · exact hall y h2

lemma keepMinPrio_mem (g : List UInstr) (r : UInstr) (h : keepMinPrio g = some r) :
    r ∈ g ∧ ∀ x ∈ g, SLEEVE_PRIORITY r.sleeve ≤ SLEEVE_PRIORITY x.sleeve := by
  cases g with
  | nil => exact absurd h (by simp [keepMinPrio])
  | cons x rest =>
    obtain ⟨m, hm, hmem, hall⟩ := keepMinPrio_spec (x :: rest) (List.cons_ne_nil x rest)
    rw [hm] at h
    obtain rfl : m = r := Option.some.inj h
    exact ⟨hmem, hall⟩

lemma filterMap_unique_count (f : String → Option UInstr) (ty : String)
    (hf : ∀ t2 r, f t2 = some r → r.ticker_yf = t2) :
    ∀ (L : List String), L.Nodup →
    ((L.filterMap f).filter (fun r => decide (r.ticker_yf = ty))).length
      = if ty ∈ L ∧ (f ty).isSome then 1 else 0
  | [], _ => by simp
  | t2 :: L', hnd => by
    obtain ⟨hnotmem, hnd'⟩ := List.nodup_cons.mp hnd
    have ih := filterMap_unique_count f ty hf L' hnd'
    by_cases hty : ty = t2
    · subst hty
      cases hft : f ty with
      | none =>
        rw [List.filterMap_cons, hft, ih]
        simp [hft, hnotmem]
      | some r =>
        have hr := hf ty r hft
        rw [List.filterMap_cons, hft, List.filter_cons]
        have hkeep : decide (r.ticker_yf = ty) = true := by simp [hr]
        rw [hkeep, if_pos rfl]
        rw [List.length_cons, ih]
        simp [hft, hnotmem]
    · cases hft : f t2 with
      | none =>
        rw [List.filterMap_cons, hft, ih]
        simp [List.mem_cons, hty]
      | some r =>
        have hr := hf t2 r hft
        rw [List.filterMap_cons, hft, List.filter_cons]
        have hdrop : decide (r.ticker_yf = ty) = false := by
          simp [hr]
          exact fun h => hty h.symm
        rw [hdrop, if_neg (by simp), ih]
        simp [List.mem_cons, hty]

/-- C5: for every symbol appearing in the universe, exactly one row survives
`enforce_unique_underlyings` into the evaluated universe; it is one of the
symbol's input rows and its sleeve has the best (lowest) value of
`SLEEVE_PRIORITY` among all of the symbol's rows
(HEDGE > ETF_CORE > STOCK_CORE > STOCK_HIGH_RISK). -/
theorem sleeve_uniqueness (rows : List UInstr) (ty : String)
    (hty : ty ∈ rows.map (·.ticker_yf)) :
    ((enforceUniqueUnderlyings rows).filter (fun r => decide (r.ticker_yf = ty))).length
        = 1 ∧
    ∃ r, r ∈ enforceUniqueUnderlyings rows ∧ r.ticker_yf = ty ∧ r ∈ rows ∧
      ∀ r2 ∈ rows, r2.ticker_yf = ty →
        SLEEVE_PRIORITY r.sleeve ≤ SLEEVE_PRIORITY r2.sleeve := by
  have hf : ∀ t2 r,
      keepMinPrio (rows.filter (fun r => decide (r.ticker_yf = t2))) = some r →
      r.ticker_yf = t2 := by
    intro t2 r h
    have hmem := (keepMinPrio_mem _ r h).1
    have := (List.mem_filter.mp hmem).2
    exact of_decide_eq_true this
  obtain ⟨r0, hr0, hr0ty⟩ : ∃ r0, r0 ∈ rows ∧ r0.ticker_yf = ty := by
    obtain ⟨r0, hr0, hr0ty⟩ := List.mem_map.mp hty
    exact ⟨r0, hr0, hr0ty⟩
  have hg_ne : rows.filter (fun r => decide (r.ticker_yf = ty)) ≠ [] := by
    intro hempty
    have : r0 ∈ rows.filter (fun r => decide (r.ticker_yf = ty)) :=
      List.mem_filter.mpr ⟨hr0, by simp [hr0ty]⟩
    rw [hempty] at this
    exact absurd this (List.not_mem_nil r0)
  obtain ⟨m, hm, hmemg, hall⟩ := keepMinPrio_spec _ hg_ne
  constructor
  · unfold enforceUniqueUnderlyings
    rw [filterMap_unique_count _ ty hf _ (List.nodup_dedup _)]
    rw [if_pos ⟨List.mem_dedup.mpr hty, by rw [hm]; rfl⟩]
  · refine ⟨m, ?_, ?_, ?_, ?_⟩
    · unfold enforceUniqueUnderlyings
      exact List.mem_filterMap.mpr ⟨ty, List.mem_dedup.mpr hty, hm⟩
    · exact of_decide_eq_true (List.mem_filter.mp hmemg).2
    · exact (List.mem_filter.mp hmemg).1
    · intro r2 hr2 hr2ty
      exact hall r2 (List.mem_filter.mpr ⟨hr2, by simp [hr2ty]⟩)

/-- C5 witness: a symbol listed in all four sleeves keeps exactly one row,
the HEDGE one, through `sleeve_uniqueness`. -/
theorem sleeve_uniqueness_witness :
    ((enforceUniqueUnderlyings
      [⟨"SPY", "SPY", "STOCK_CORE"⟩, ⟨"SPY", "SPY", "HEDGE"⟩,
       ⟨"SPY", "SPY", "ETF_CORE"⟩, ⟨"SPY", "SPY", "STOCK_HIGH_RISK"⟩]).filter
        (fun r => decide (r.ticker_yf = "SPY"))).length = 1 ∧
    ∃ r, r ∈ enforceUniqueUnderlyings
      [⟨"SPY", "SPY", "STOCK_CORE"⟩, ⟨"SPY", "SPY", "HEDGE"⟩,
       ⟨"SPY", "SPY", "ETF_CORE"⟩, ⟨"SPY", "SPY", "STOCK_HIGH_RISK"⟩] ∧
      r.ticker_yf = "SPY" ∧
      r ∈ [(⟨"SPY", "SPY", "STOCK_CORE"⟩ : UInstr), ⟨"SPY", "SPY", "HEDGE"⟩,
       ⟨"SPY", "SPY", "ETF_CORE"⟩, ⟨"SPY", "SPY", "STOCK_HIGH_RISK"⟩] ∧
      ∀ r2 ∈ [(⟨"SPY", "SPY", "STOCK_CORE"⟩ : UInstr), ⟨"SPY", "SPY", "HEDGE"⟩,
       ⟨"SPY", "SPY", "ETF_CORE"⟩, ⟨"SPY", "SPY", "STOCK_HIGH_RISK"⟩],
        r2.ticker_yf = "SPY" →
        SLEEVE_PRIORITY r.sleeve ≤ SLEEVE_PRIORITY r2.sleeve :=
  sleeve_uniqueness
    [⟨"SPY", "SPY", "STOCK_CORE"⟩, ⟨"SPY", "SPY", "HEDGE"⟩,
     ⟨"SPY", "SPY", "ETF_CORE"⟩, ⟨"SPY", "SPY", "STOCK_HIGH_RISK"⟩] "SPY"
    (by simp)

lemma filter_partition_sum (v : RiskRow → ℚ) (p : RiskRow → Bool) (rows : List RiskRow) :
    ((rows.filter p).map v).sum + ((rows.filter (fun r => !(p r))).map v).sum
      = (rows.map v).sum := by
  induction rows with
  | nil => simp
  | cons x rest ih =>
    cases hp : p x <;> simp [List.filter_cons, hp, ← ih] <;> ring

lemma sum_over_clusters (v : RiskRow → ℚ) :
    ∀ (L : List String) (rows : List RiskRow), L.Nodup →
    (∀ r ∈ rows, r.cluster ∈ L) →
    (L.map (fun c => ((rows.filter (fun r => decide (r.cluster = c))).map v).sum)).sum
      = (rows.map v).sum
  | [], rows, _, hmem => by
    cases rows with
    | nil => simp
    | cons x rest => exact absurd (hmem x (List.mem_cons_self x rest)) (List.not_mem_nil _)
  | c0 :: L', rows, hnd, hmem => by
    obtain ⟨hc0, hnd'⟩ := List.nodup_cons.mp hnd
    have hmemB : ∀ r ∈ rows.filter (fun r => !(decide (r.cluster = c0))),
        r.cluster ∈ L' := by
      intro r hr
      obtain ⟨hrows, hne⟩ := List.mem_filter.mp hr
      have hne2 : r.cluster ≠ c0 := by
        intro h
        simp [h] at hne
      rcases List.mem_cons.mp (hmem r hrows) with h | h
      · exact absurd h hne2
      · exact h
    have hfilters : ∀ c ∈ L',
        rows.filter (fun r => decide (r.cluster = c))
          = (rows.filter (fun r => !(decide (r.cluster = c0)))).filter
              (fun r => decide (r.cluster = c)) := by
      intro c hc
      have hcne : c ≠ c0 := fun h => hc0 (h ▸ hc)
      rw [List.filter_filter]
      apply List.filter_congr
      intro r _
      by_cases hr : r.cluster = c
      · simp [hr, hcne]
      · simp [hr]
    rw [List.map_cons, List.sum_cons]
    have hmapL : L'.map (fun c => ((rows.filter (fun r => decide (r.cluster = c))).map v).sum)
        = L'.map (fun c => (((rows.filter (fun r => !(decide (r.cluster = c0)))).filter
            (fun r => decide (r.cluster = c))).map v).sum) := by
      apply List.map_congr_left
      intro c hc
      rw [hfilters c hc]
    rw [hmapL, sum_over_clusters v L' _ hnd' hmemB]
    exact filter_partition_sum v _ rows

/-- C2 counterexample: a held hedge-sleeve instrument whose `cluster_map`
entry assigns it the cluster GOLD (as `assign_cluster` allows, since the map
entry wins over the sleeve fallback).  Its open risk is counted in the
per-cluster totals over the non-HEDGE clusters (15) but excluded from the
sleeve-based non-hedge open-risk total (10), so the claimed equality fails. -/
theorem cluster_risk_counterexample :
    totalClusterRiskExHedge
      [{ sleeve := "HEDGE", cluster := assign_cluster "SPXS" "HEDGE" [("SPXS", "GOLD")],
         is_held := true, t212_quantity := 1, close := some 10, active_stop := some 5,
         stop_level := none, fx_to_gbp_est := some 1 },
       { sleeve := "STOCK_CORE", cluster := "TECH", is_held := true, t212_quantity := 1,
         close := some 20, active_stop := some 10, stop_level := none,
         fx_to_gbp_est := some 1 }] = 15 ∧
    openRiskExHedge
      [{ sleeve := "HEDGE", cluster := assign_cluster "SPXS" "HEDGE" [("SPXS", "GOLD")],
         is_held := true, t212_quantity := 1, close := some 10, active_stop := some 5,
         stop_level := none, fx_to_gbp_est := some 1 },
       { sleeve := "STOCK_CORE", cluster := "TECH", is_held := true, t212_quantity := 1,
         close := some 20, active_stop := some 10, stop_level := none,
         fx_to_gbp_est := some 1 }] = 10 ∧
    (15 : ℚ) ≠ 10 := by
  have hassign : assign_cluster "SPXS" "HEDGE" [("SPXS", "GOLD")] = "GOLD" := rfl
  refine ⟨?_, ?_, by norm_num⟩
  · rw [hassign]
    have hd : (["GOLD", "TECH"] : List String).dedup = ["GOLD", "TECH"] := by
      simp
    simp only [totalClusterRiskExHedge, clustersOf, List.map_cons, List.map_nil, hd]
    simp [clusterRiskGbp, sumSkipNa, heldRiskGbp, heldStopDist, heldStopUsed,
      List.filter_cons]
    norm_num
  · rw [hassign]
    simp [openRiskExHedge, sumSkipNa, heldRiskGbp, heldStopDist, heldStopUsed,
      List.filter_cons]
    norm_num

/-- C2 (amended): for every run, per-cluster exposure never double-counts —
summing the per-cluster totals over all distinct clusters gives exactly the
sum of every row's held risk, each row counted once through
quantity x max(0, close - stop-in-use) x fx — and, provided hedge-sleeve rows
are exactly the rows of the HEDGE cluster (as holds whenever hedge
instruments take the sleeve-based cluster fallback), the sum over the
non-hedge clusters equals the sleeve-based total non-hedge open risk. -/
theorem cluster_risk_partition (rows : List RiskRow) :
    ((clustersOf rows).map (clusterRiskGbp rows)).sum
      = sumSkipNa (rows.map heldRiskGbp) ∧
    ((∀ r ∈ rows, (r.sleeve = "HEDGE" ↔ r.cluster = "HEDGE")) →
      totalClusterRiskExHedge rows = openRiskExHedge rows) := by
  have hv : ∀ (l : List RiskRow),
      sumSkipNa (l.map heldRiskGbp) = (l.map (fun r => (heldRiskGbp r).getD 0)).sum := by
    intro l
    rw [sumSkipNa, List.map_map]
    rfl
  constructor
  · -- the no-double-count partition over all clusters, for every run
    rw [hv]
    have hsum := sum_over_clusters (fun r => (heldRiskGbp r).getD 0)
      (clustersOf rows) rows (List.nodup_dedup _)
      (fun r hr => List.mem_dedup.mpr (List.mem_map.mpr ⟨r, hr, rfl⟩))
    rw [← hsum]
    congr 1
    apply List.map_congr_left
    intro c _
    unfold clusterRiskGbp
    rw [hv]
  · -- the ex-hedge equality, under the sleeve/cluster alignment
    intro halign
    unfold totalClusterRiskExHedge openRiskExHedge
    have hcongr : rows.filter (fun r => decide (r.sleeve ≠ "HEDGE"))
        = rows.filter (fun r => !(decide (r.cluster = "HEDGE"))) := by
      apply List.filter_congr
      intro r hr
      by_cases h : r.cluster = "HEDGE"
      · simp [h, (halign r hr).mpr h]
      · have : ¬ r.sleeve = "HEDGE" := fun h2 => h ((halign r hr).mp h2)
        simp [h, this]
    rw [hcongr, hv]
    have hsum := sum_over_clusters (fun r => (heldRiskGbp r).getD 0)
      ((clustersOf rows).filter (fun c => decide (c ≠ "HEDGE")))
      (rows.filter (fun r => !(decide (r.cluster = "HEDGE"))))
      (List.Nodup.filter _ (List.nodup_dedup _))
      (by
        intro r hr
        obtain ⟨hrows, hne⟩ := List.mem_filter.mp hr
        refine List.mem_filter.mpr ⟨?_, ?_⟩
        · exact List.mem_dedup.mpr (List.mem_map.mpr ⟨r, hrows, rfl⟩)
        · simpa using hne)
    rw [← hsum]
    congr 1
    apply List.map_congr_left
    intro c hc
    obtain ⟨-, hcne⟩ := List.mem_filter.mp hc
    have hcne2 : c ≠ "HEDGE" := by simpa using hcne
    unfold clusterRiskGbp
    rw [hv]
    congr 1
    rw [List.filter_filter]
    congr 1
    apply List.filter_congr
    intro r _
    by_cases hr : r.cluster = c
    · simp [hr, hcne2]
    · simp [hr]

/-- C2 (amended) witness: two held rows in distinct non-hedge clusters plus a
hedge row in the HEDGE cluster: the non-hedge cluster sums (5 + 10) equal the
non-hedge open risk, via `cluster_risk_partition`. -/
theorem cluster_risk_partition_witness :
    totalClusterRiskExHedge
      [{ sleeve := "HEDGE", cluster := "HEDGE", is_held := true, t212_quantity := 2,
         close := some 10, active_stop := some 7, stop_level := none,
         fx_to_gbp_est := some 1 },
       { sleeve := "STOCK_CORE", cluster := "GOLD", is_held := true, t212_quantity := 1,
         close := some 10, active_stop := some 5, stop_level := none,
         fx_to_gbp_est := some 1 },
       { sleeve := "STOCK_CORE", cluster := "TECH", is_held := true, t212_quantity := 1,
         close := some 20, active_stop := some 10, stop_level := none,
         fx_to_gbp_est := some 1 }]
      = openRiskExHedge
      [{ sleeve := "HEDGE", cluster := "HEDGE", is_held := true, t212_quantity := 2,
         close := some 10, active_stop := some 7, stop_level := none,
         fx_to_gbp_est := some 1 },
       { sleeve := "STOCK_CORE", cluster := "GOLD", is_held := true, t212_quantity := 1,
         close := some 10, active_stop := some 5, stop_level := none,
         fx_to_gbp_est := some 1 },
       { sleeve := "STOCK_CORE", cluster := "TECH", is_held := true, t212_quantity := 1,
         close := some 20, active_stop := some 10, stop_level := none,
         fx_to_gbp_est := some 1 }] :=
  (cluster_risk_partition _).2 (by
    intro r hr
    simp only [List.mem_cons, List.not_mem_nil, or_false] at hr
    rcases hr with rfl | rfl | rfl <;> simp)

lemma clipQ_mem (x lo hi : ℚ) (h : lo ≤ hi) :
    lo ≤ clipQ x lo hi ∧ clipQ x lo hi ≤ hi :=
  ⟨le_max_left lo _, max_le h (min_le_right x hi)⟩

lemma tieBreak_bound (r : RankRow)
    (hadx : ∀ a, r.adx_14 = some a → 0 ≤ a ∧ a ≤ 100)
    (hrs : ∀ x, r.rs_vs_benchmark = some x → -1 ≤ x) :
    -52 ≤ tieBreak r ∧ tieBreak r ≤ 52 := by
  have h1 : -1 ≤ (match r.adx_14 with
      | some a => -(a / 100)
      | none => (0:ℚ)) ∧ (match r.adx_14 with
      | some a => -(a / 100)
      | none => (0:ℚ)) ≤ 0 := by
    cases ha : r.adx_14 with
    | none => norm_num
    | some a =>
      obtain ⟨h0, h100⟩ := hadx a ha
      constructor <;> simp <;> linarith
  have h2 : -(1/20) ≤ (match r.vol_ratio with
      | some v => -(clipQ v 0 5 / 100)
      | none => (0:ℚ)) ∧ (match r.vol_ratio with
      | some v => -(clipQ v 0 5 / 100)
      | none => (0:ℚ)) ≤ 0 := by
    cases r.vol_ratio with
    | none => norm_num
    | some v =>
      obtain ⟨hlo, hhi⟩ := clipQ_mem v 0 5 (by norm_num)
      constructor <;> simp <;> linarith
  have h3 : -(1/200) ≤ (match r.extension_atr with
      | some e => clipQ e (-5) 5 / 1000
      | none => (0:ℚ)) ∧ (match r.extension_atr with
      | some e => clipQ e (-5) 5 / 1000
      | none => (0:ℚ)) ≤ 1/200 := by
    cases r.extension_atr with
    | none => norm_num
    | some e =>
      obtain ⟨hlo, hhi⟩ := clipQ_mem e (-5) 5 (by norm_num)
      constructor <;> linarith
  have h4 : -(1/2) ≤ (match r.trend_efficiency with
      | some te => (if TREND_EFFICIENCY_BOOST_THRESHOLD ≤ te then -(1/2) else 0)
          + (if te < TREND_EFFICIENCY_PENALTY_THRESHOLD then (3:ℚ)/10 else 0)
      | none => (0:ℚ)) ∧ (match r.trend_efficiency with
      | some te => (if TREND_EFFICIENCY_BOOST_THRESHOLD ≤ te then -(1/2) else 0)
          + (if te < TREND_EFFICIENCY_PENALTY_THRESHOLD then (3:ℚ)/10 else 0)
      | none => (0:ℚ)) ≤ 3/10 := by
    cases r.trend_efficiency with
    | none => norm_num
    | some te =>
      unfold TREND_EFFICIENCY_BOOST_THRESHOLD TREND_EFFICIENCY_PENALTY_THRESHOLD
      dsimp only
      split_ifs with hb hp hp <;> norm_num <;> linarith
  have h5 : -50 ≤ (match r.rs_vs_benchmark with
      | some rs => (if 0 < rs then -(clipQ (rs * 200) 0 50) else 0)
          + (if rs < 0 then -(rs * 50) else 0)
      | none => (0:ℚ)) ∧ (match r.rs_vs_benchmark with
      | some rs => (if 0 < rs then -(clipQ (rs * 200) 0 50) else 0)
          + (if rs < 0 then -(rs * 50) else 0)
      | none => (0:ℚ)) ≤ 50 := by
    cases hx : r.rs_vs_benchmark with
    | none => norm_num
    | some rs =>
      have hrs1 := hrs rs hx
      obtain ⟨hlo, hhi⟩ := clipQ_mem (rs * 200) 0 50 (by norm_num)
      dsimp only
      split_ifs with hpos hneg hneg <;> constructor <;> linarith
  unfold tieBreak TREND_EFFICIENCY_ENABLED RS_RANKING_ENABLED
  rw [if_pos rfl, if_pos rfl]
  constructor <;> linarith [h1.1, h1.2, h2.1, h2.2, h3.1, h3.2, h4.1, h4.2, h5.1, h5.2]

lemma rankBucket_cases (r : RankRow) (b : ℚ) (hb : rankBucket r = some b) :
    b = 0 ∨ b = 1 ∨ b = 2 ∨ b = 3 ∨ b = 4 := by
  unfold rankBucket at hb
  split_ifs at hb <;> simp at hb <;> simp [← hb]

lemma rank_score_eq (r : RankRow) (b p s : ℚ)
    (hb : rankBucket r = some b) (hp : rankPrimary r = some p)
    (hs : rank_score r = some s) :
    s = b * 1000000 + p * 1000 + tieBreak r := by
  unfold rank_score at hs
  split_ifs at hs with h
  rw [hb, hp] at hs
  exact (Option.some.inj hs).symm

/-- C8: for any two rankable candidates in different rank buckets whose
primary metrics are bounded by 100 in absolute value and whose tie-break
inputs are bounded (ADX in [0, 100], relative strength at least -1), the
candidate in the higher-priority (lower) bucket has the strictly lower
`rank_score`, regardless of the tie-break values: the bucket term times
1,000,000 dominates the primary term times 1,000 plus the bounded nudges. -/
theorem rank_bucket_dominates (r1 r2 : RankRow) (b1 b2 p1 p2 s1 s2 : ℚ)
    (hb1 : rankBucket r1 = some b1) (hb2 : rankBucket r2 = some b2)
    (hp1 : rankPrimary r1 = some p1) (hp2 : rankPrimary r2 = some p2)
    (hs1 : rank_score r1 = some s1) (hs2 : rank_score r2 = some s2)
    (hlt : b1 < b2)
    (hp1b : |p1| ≤ 100) (hp2b : |p2| ≤ 100)
    (hadx1 : ∀ a, r1.adx_14 = some a → 0 ≤ a ∧ a ≤ 100)
    (hadx2 : ∀ a, r2.adx_14 = some a → 0 ≤ a ∧ a ≤ 100)
    (hrs1 : ∀ x, r1.rs_vs_benchmark = some x → -1 ≤ x)
    (hrs2 : ∀ x, r2.rs_vs_benchmark = some x → -1 ≤ x) :
    s1 < s2 := by
  have he1 := rank_score_eq r1 b1 p1 s1 hb1 hp1 hs1
  have he2 := rank_score_eq r2 b2 p2 s2 hb2 hp2 hs2
  have hgap : b1 + 1 ≤ b2 := by
    rcases rankBucket_cases r1 b1 hb1 with rfl | rfl | rfl | rfl | rfl <;>
      rcases rankBucket_cases r2 b2 hb2 with rfl | rfl | rfl | rfl | rfl <;>
      norm_num at hlt ⊢
  have ht1 := tieBreak_bound r1 hadx1 hrs1
  have ht2 := tieBreak_bound r2 hadx2 hrs2
  have hp1b2 := abs_le.mp hp1b
  have hp2b2 := abs_le.mp hp2b
  rw [he1, he2]
  nlinarith [ht1.1, ht1.2, ht2.1, ht2.2, hp1b2.1, hp1b2.2, hp2b2.1, hp2b2.2, hgap]

/-- C8 witness: a STOCK_CORE TREND candidate (bucket 0) outranks an ETF
candidate (bucket 2) through `rank_bucket_dominates`. -/
theorem rank_bucket_dominates_witness :
    rank_score
      { is_held := false, status := "READY", sleeve := "STOCK_CORE", regime := "TREND",
        distance_to_20d_high_pct := some 1, distance_to_55d_high_pct := none,
        range_position_20 := none, adx_14 := none, vol_ratio := none,
        extension_atr := none, trend_efficiency := none, rs_vs_benchmark := none }
      = some 1000 ∧
    rank_score
      { is_held := false, status := "WATCH", sleeve := "ETF_CORE", regime := "TREND",
        distance_to_20d_high_pct := none, distance_to_55d_high_pct := some 2,
        range_position_20 := none, adx_14 := none, vol_ratio := none,
        extension_atr := none, trend_efficiency := none, rs_vs_benchmark := none }
      = some 2002000 ∧
    (1000 : ℚ) < 2002000 := by
  have h1 : rank_score
      { is_held := false, status := "READY", sleeve := "STOCK_CORE", regime := "TREND",
        distance_to_20d_high_pct := some 1, distance_to_55d_high_pct := none,
        range_position_20 := none, adx_14 := none, vol_ratio := none,
        extension_atr := none, trend_efficiency := none, rs_vs_benchmark := none }
      = some 1000 := by
    simp [rank_score, rankBucket, rankPrimary, tieBreak]
  have h2 : rank_score
      { is_held := false, status := "WATCH", sleeve := "ETF_CORE", regime := "TREND",
        distance_to_20d_high_pct := none, distance_to_55d_high_pct := some 2,
        range_position_20 := none, adx_14 := none, vol_ratio := none,
        extension_atr := none, trend_efficiency := none, rs_vs_benchmark := none }
      = some 2002000 := by
    simp [rank_score, rankBucket, rankPrimary, tieBreak]
    norm_num
  refine ⟨h1, h2, ?_⟩
  refine rank_bucket_dominates _ _ 0 2 1 2 1000 2002000 ?_ ?_ ?_ ?_ h1 h2
    (by norm_num) (by norm_num) (by norm_num) ?_ ?_ ?_ ?_
  · simp [rankBucket]
  · simp [rankBucket]
  · simp [rankPrimary]
  · simp [rankPrimary]
  · intro a ha
    simp at ha
  · intro a ha
    simp at ha
  · intro x hx
    simp at hx
  · intro x hx
    simp at hx

end Turtle
